import Mathlib

/-! # Telemetry engine of Pixhawk_GCS: ring buffer, tick schedule, statistics window

A shallow embedding of `app/src/main/cpp/telemetry/TelemetryEngine.{hpp,cpp}`.

Modelling conventions.

* `int`, `int32_t` and `int64_t` values are `Int`.  The two counters that are incremented
  without bound (`messageSeq`, an atomic `int32_t`, and the function-local static
  `tickCount`) are wrapped to 32-bit two's complement with `wrap32`; `static_cast<int32_t>`
  of a container size is wrapped the same way.  C++ `%` on `int` is `Int.tmod`.
* `double` values are exact rationals (`ℚ`): rounding is not modelled.
* Everything a tick reads from outside the engine (the steady clock, the values drawn from
  the uniform distributions, the values returned by `std::sin` and `std::cos`) is an input
  of the tick, collected in `TickEnv`.
* `ringBuffer` is a function from slot index to record; the C++ array has the slots
  `0 .. RING_BUFFER_SIZE - 1`, and every access made from cursors in that range stays in it.
* `std::atomic` loads and stores are plain reads and writes: the embedding is sequential.
* `start` and `stop` act on a `Controller`, the engine with the number of its live worker
  threads; whether the creation of a thread succeeds is an input of `start`.
-/

namespace Pixhawk

/-! ## Data model (`TelemetryEngine.hpp`) -/

/-- The message kinds, `enum class MessageType`. -/
inductive MessageType where
  | HEARTBEAT
  | ATTITUDE
  | GPS
  | BATTERY
deriving DecidableEq, Repr

/-- The anonymous `data` struct of a `TelemetryMessage`. -/
structure MsgData where
  yaw : ℚ
  pitch : ℚ
  roll : ℚ
  lat : ℚ
  lon : ℚ
  alt : ℚ
  voltage : ℚ
  current : ℚ
  remaining : Int
  armed : Bool
  mode : String
deriving DecidableEq

/-- The `struct TelemetryMessage`. -/
structure TelemetryMessage where
  type : MessageType
  timestamp_ms : Int
  seq : Int
  data : MsgData
deriving DecidableEq

/-- The `struct TelemetryStats`. -/
structure TelemetryStats where
  rate_hz : ℚ
  avg_altitude : ℚ
  avg_batt_v : ℚ
  window_start_ms : Int
  message_count : Int
deriving DecidableEq

/-- Capacity of the ring buffer, `RING_BUFFER_SIZE`. -/
def RING_BUFFER_SIZE : Int := 10000

/-- Length of the statistics window in milliseconds, `STATS_WINDOW_MS`. -/
def STATS_WINDOW_MS : Int := 5000

/-- Tick interval in milliseconds, `TICK_INTERVAL_MS`. -/
def TICK_INTERVAL_MS : Int := 100

/-- Sample cap `MAX_SIZE`, the local constant of `cleanOldStats`. -/
def MAX_SIZE : Nat := 1000

/-- Reduction of an integer to the 32-bit two's complement range `[-2^31, 2^31)`. -/
def wrap32 (x : Int) : Int := (x + 2147483648) % 4294967296 - 2147483648

/-- The data members of `class TelemetryEngine` (the worker thread handle apart). -/
structure TelemetryEngine where
  ringBuffer : Int → TelemetryMessage
  writeIndex : Int
  readIndex : Int
  running : Bool
  recentTimestamps : List Int
  recentAltitudes : List ℚ
  recentBatteryVoltages : List ℚ
  messageSeq : Int
  simTime : ℚ
  simArmed : Bool
  simBatteryVoltage : ℚ
  simAltitude : ℚ
  simLatitude : ℚ
  simLongitude : ℚ

/-- What one tick reads from outside the engine. -/
structure TickEnv where
  /-- the steady clock, in milliseconds, when the record is created -/
  now : Int
  /-- first value drawn from the generator in this tick -/
  draw1 : ℚ
  /-- second value drawn -/
  draw2 : ℚ
  /-- third value drawn -/
  draw3 : ℚ
  /-- value returned by the call of `std::sin` in this tick -/
  sinVal : ℚ
  /-- value returned by the call of `std::cos` in this tick -/
  cosVal : ℚ

/-- The zeroed `data` with `mode = "MANUAL"` set up by `TelemetryMessage::TelemetryMessage`. -/
def MsgData.zero : MsgData :=
  { yaw := 0, pitch := 0, roll := 0, lat := 0, lon := 0, alt := 0, voltage := 0,
    current := 0, remaining := 0, armed := false, mode := "MANUAL" }

/-- The default record built by `TelemetryMessage::TelemetryMessage()`. -/
def TelemetryMessage.default : TelemetryMessage :=
  { type := MessageType.HEARTBEAT, timestamp_ms := 0, seq := 0, data := MsgData.zero }

/-- The engine built by `TelemetryEngine::TelemetryEngine()` together with the default
member initialisers. -/
def TelemetryEngine.fresh : TelemetryEngine :=
  { ringBuffer := fun _ => TelemetryMessage.default
    writeIndex := 0
    readIndex := 0
    running := false
    recentTimestamps := []
    recentAltitudes := []
    recentBatteryVoltages := []
    messageSeq := 0
    simTime := 0
    simArmed := false
    simBatteryVoltage := 12.6
    simAltitude := 100
    simLatitude := 37.7749
    simLongitude := -122.4194 }

/-! ## Reading the buffer -/

/-- Model of `TelemetryEngine::getBatch`: the batch returned and the engine after the call.
The function stores to no member, so the engine comes back as it went in. -/
def getBatch (e : TelemetryEngine) (maxCount : Int) : List TelemetryMessage × TelemetryEngine :=
  if maxCount ≤ 0 then ([], e)
  else
    let currentWrite := e.writeIndex
    let currentRead := e.readIndex
    let available :=
      if currentWrite ≥ currentRead then currentWrite - currentRead
      else RING_BUFFER_SIZE - currentRead + currentWrite
    let count := min available maxCount
    ((List.range count.toNat).map
        (fun i : Nat => e.ringBuffer (Int.tmod (currentRead + (i : Int)) RING_BUFFER_SIZE)), e)

/-! ## Statistics window -/

/-- The halving loop of `std::lower_bound` over `ts[first, first + len)`: `fuel` bounds the
number of iterations and is started at the length of the range. -/
def lowerBoundAux (ts : List Int) (cutoff : Int) : Nat → Nat → Nat → Nat
  | 0, first, _ => first
  | fuel + 1, first, len =>
    if len = 0 then first
    else
      let half := len / 2
      let mid := first + half
      if ts.getD mid 0 < cutoff then lowerBoundAux ts cutoff fuel (mid + 1) (len - half - 1)
      else lowerBoundAux ts cutoff fuel first half

/-- The iterator `std::lower_bound(ts.begin(), ts.end(), cutoff)` as an offset from
`begin()`. -/
def lowerBound (ts : List Int) (cutoff : Int) : Nat :=
  lowerBoundAux ts cutoff ts.length 0 ts.length

/-- The size cap applied to a sample vector by `cleanOldStats`. -/
def capSamples (xs : List ℚ) : List ℚ :=
  if xs.length > MAX_SIZE then xs.drop (xs.length - MAX_SIZE) else xs

/-- Model of `TelemetryEngine::cleanOldStats`. -/
def cleanOldStats (currentTime : Int) (e : TelemetryEngine) : TelemetryEngine :=
  let cutoff := currentTime - STATS_WINDOW_MS
  let it := lowerBound e.recentTimestamps cutoff
  { e with
    recentTimestamps := e.recentTimestamps.drop it
    recentAltitudes := capSamples e.recentAltitudes
    recentBatteryVoltages := capSamples e.recentBatteryVoltages }

/-- Model of `TelemetryEngine::updateStats`. -/
def updateStats (msg : TelemetryMessage) (e : TelemetryEngine) : TelemetryEngine :=
  let e1 := { e with recentTimestamps := e.recentTimestamps ++ [msg.timestamp_ms] }
  let e2 :=
    if msg.type = MessageType.GPS then
      { e1 with recentAltitudes := e1.recentAltitudes ++ [msg.data.alt] }
    else e1
  let e3 :=
    if msg.type = MessageType.BATTERY then
      { e2 with recentBatteryVoltages := e2.recentBatteryVoltages ++ [msg.data.voltage] }
    else e2
  cleanOldStats msg.timestamp_ms e3

/-- The rate computed by `getStats` from the pruned timestamps and the message count. -/
def rateOf (ts : List Int) (messageCount : Int) : ℚ :=
  if messageCount > 1 then
    let timeSpan : ℚ := ((ts.getLastD 0 - ts.headD 0 : Int) : ℚ) / 1000
    if timeSpan > 0 then (messageCount : ℚ) / timeSpan else 0
  else 0

/-- The mean computed by `getStats` for a sample vector (0 for an empty one). -/
def averageOf (xs : List ℚ) : ℚ :=
  if xs.isEmpty then 0 else xs.foldl (fun sum x => sum + x) 0 / (xs.length : ℚ)

/-- Model of `TelemetryEngine::getStats`, with the clock reading `currentTime` as an input: the
snapshot returned and the engine after the pruning done by the call. -/
def getStats (currentTime : Int) (e : TelemetryEngine) : TelemetryStats × TelemetryEngine :=
  let e1 := cleanOldStats currentTime e
  let messageCount := wrap32 (e1.recentTimestamps.length : Int)
  ({ rate_hz := rateOf e1.recentTimestamps messageCount
     avg_altitude := averageOf e1.recentAltitudes
     avg_batt_v := averageOf e1.recentBatteryVoltages
     window_start_ms := currentTime - STATS_WINDOW_MS
     message_count := messageCount }, e1)

/-! ## Message generator -/

/-- Truncation of a rational towards zero, as done by `static_cast<int32_t>` and inside
`std::fmod`. -/
def truncQ (q : ℚ) : Int := if 0 ≤ q then ⌊q⌋ else ⌈q⌉

/-- The remainder `std::fmod x y` (same sign as `x`). -/
def fmod (x y : ℚ) : ℚ := x - y * (truncQ (x / y) : ℚ)

/-- Model of `TelemetryEngine::createHeartbeat`; `draw1` is `dis(gen)`. -/
def createHeartbeat (env : TickEnv) (e : TelemetryEngine) : TelemetryMessage × TelemetryEngine :=
  let armed := if env.draw1 < 0.05 then !e.simArmed else e.simArmed
  ({ type := MessageType.HEARTBEAT
     timestamp_ms := env.now
     seq := e.messageSeq
     data := { MsgData.zero with armed := armed, mode := if armed then "STABILIZE" else "MANUAL" } },
   { e with messageSeq := wrap32 (e.messageSeq + 1), simArmed := armed })

/-- Model of `TelemetryEngine::createAttitude`; the three draws are the three `noise(gen)`. -/
def createAttitude (env : TickEnv) (e : TelemetryEngine) : TelemetryMessage × TelemetryEngine :=
  ({ type := MessageType.ATTITUDE
     timestamp_ms := env.now
     seq := e.messageSeq
     data := { MsgData.zero with
       yaw := fmod (e.simTime * 2) 360 + env.draw1
       pitch := 5 * env.sinVal + env.draw2
       roll := 3 * env.cosVal + env.draw3 } },
   { e with messageSeq := wrap32 (e.messageSeq + 1) })

/-- Model of `TelemetryEngine::createGps`; `draw1`, `draw2` are the two `noise(gen)` and
`draw3` is `altNoise(gen)`. -/
def createGps (env : TickEnv) (e : TelemetryEngine) : TelemetryMessage × TelemetryEngine :=
  let simAltitude := max 0 (e.simAltitude + (env.sinVal * 0.1 + env.draw3))
  ({ type := MessageType.GPS
     timestamp_ms := env.now
     seq := e.messageSeq
     data := { MsgData.zero with
       lat := e.simLatitude + e.simTime * 0.0001 + env.draw1
       lon := e.simLongitude + e.simTime * 0.0001 + env.draw2
       alt := simAltitude } },
   { e with messageSeq := wrap32 (e.messageSeq + 1), simAltitude := simAltitude })

/-- Model of `TelemetryEngine::createBattery`; `draw1`, `draw2` are the two `noise(gen)`. -/
def createBattery (env : TickEnv) (e : TelemetryEngine) : TelemetryMessage × TelemetryEngine :=
  let simBatteryVoltage := max 10 (e.simBatteryVoltage - e.simTime * 0.0001)
  let percentage := (simBatteryVoltage - 10) / (12.6 - 10) * 100
  ({ type := MessageType.BATTERY
     timestamp_ms := env.now
     seq := e.messageSeq
     data := { MsgData.zero with
       voltage := simBatteryVoltage + env.draw1
       current := 5 + 2 * env.sinVal + env.draw2 * 0.5
       remaining := truncQ (max 0 (min 100 percentage)) } },
   { e with messageSeq := wrap32 (e.messageSeq + 1), simBatteryVoltage := simBatteryVoltage })

/-- The `if`/`else if` chain of `pushSimulatedTick` that picks the record to create, for the
already incremented `tickCount`. -/
def generateMessage (tickCount : Int) (env : TickEnv) (e : TelemetryEngine) :
    TelemetryMessage × TelemetryEngine :=
  if Int.tmod tickCount 10 = 0 then createHeartbeat env e
  else if Int.tmod tickCount 2 = 0 then createAttitude env e
  else if Int.tmod tickCount 5 = 0 then createGps env e
  else if Int.tmod tickCount 20 = 0 then createBattery env e
  else createAttitude env e

/-- The part of `pushSimulatedTick` under the comment "Store in ring buffer": the record is
put at the write cursor, the write cursor moves on, and the read cursor moves on when the
slot just written is the one it points to. -/
def storeInRingBuffer (msg : TelemetryMessage) (e : TelemetryEngine) : TelemetryEngine :=
  let writeIdx := e.writeIndex
  let e1 := { e with
    ringBuffer := fun i => if i = writeIdx then msg else e.ringBuffer i
    writeIndex := Int.tmod (writeIdx + 1) RING_BUFFER_SIZE }
  let readIdx := e1.readIndex
  if writeIdx = readIdx then { e1 with readIndex := Int.tmod (readIdx + 1) RING_BUFFER_SIZE }
  else e1

/-- Model of `TelemetryEngine::pushSimulatedTick`.  The function-local `static int tickCount`
is shared by every engine of the process, so it is threaded through separately from the
engine: the first component is its value before and after the tick.  Its increment
overflows after 2^31 - 1 ticks, which C++ leaves undefined for a plain `int`; the model
wraps it the way the atomic `messageSeq` wraps. -/
def pushSimulatedTick (tickCount : Int) (env : TickEnv) (e : TelemetryEngine) :
    Int × TelemetryEngine :=
  let e1 := { e with simTime := e.simTime + (TICK_INTERVAL_MS : ℚ) / 1000 }
  let tickCount1 := wrap32 (tickCount + 1)
  let gen := generateMessage tickCount1 env e1
  (tickCount1, updateStats gen.1 (storeInRingBuffer gen.1 gen.2))

/-- The record created by the tick that `pushSimulatedTick tickCount env e` performs. -/
def tickRecord (tickCount : Int) (env : TickEnv) (e : TelemetryEngine) : TelemetryMessage :=
  (generateMessage (wrap32 (tickCount + 1)) env
    { e with simTime := e.simTime + (TICK_INTERVAL_MS : ℚ) / 1000 }).1

/-- The state after `n` ticks of one engine, the `k`-th tick (counted from 0) reading
`envs k`, with no other call in between. -/
def runTicks (envs : Nat → TickEnv) : Nat → Int × TelemetryEngine → Int × TelemetryEngine
  | 0, st => st
  | n + 1, st => pushSimulatedTick (runTicks envs n st).1 (envs n) (runTicks envs n st).2

/-- The record created by tick number `k` (counted from 0) of the run `runTicks envs`. -/
def recordOfTick (envs : Nat → TickEnv) (st : Int × TelemetryEngine) (k : Nat) :
    TelemetryMessage :=
  tickRecord (runTicks envs k st).1 (envs k) (runTicks envs k st).2

/-! ## Observing a sequence of records -/

/-- The engine after `updateStats` has been called with the records of `ms`, first to last. -/
def observeAll (ms : List TelemetryMessage) (e : TelemetryEngine) : TelemetryEngine :=
  ms.foldl (fun acc m => updateStats m acc) e

/-! ## Lifecycle control -/

/-- The engine together with its worker threads.  `liveWorkers` counts the threads that were
created by `start` and have not been joined; the member `workerThread` is `joinable()` exactly
when the count is positive. -/
structure Controller where
  engine : TelemetryEngine
  liveWorkers : Nat

/-- The controller of a freshly constructed engine: not running, no worker. -/
def Controller.fresh : Controller :=
  { engine := TelemetryEngine.fresh, liveWorkers := 0 }

/-- Model of `TelemetryEngine::start`.  `spawnOk` tells whether the construction of the
`std::thread` succeeds (it throws `std::system_error` otherwise).  The result is `none` when
the process is terminated: move-assigning to a `workerThread` that is still joinable calls
`std::terminate`. -/
def start (spawnOk : Bool) (c : Controller) : Option (Bool × Controller) :=
  if c.engine.running then some (true, c)
  else
    let c1 : Controller := { c with engine := { c.engine with running := true } }
    if spawnOk then
      if 0 < c1.liveWorkers then none
      else some (true, { c1 with liveWorkers := c1.liveWorkers + 1 })
    else some (false, { c1 with engine := { c1.engine with running := false } })

/-- Model of `TelemetryEngine::stop`: the flag is cleared and a joinable worker is joined.
The ticks the worker still performs before it sees the flag are ticks of the worker, not
part of `stop`. -/
def stop (c : Controller) : Controller :=
  if !c.engine.running then c
  else
    let c1 : Controller := { c with engine := { c.engine with running := false } }
    if 0 < c1.liveWorkers then { c1 with liveWorkers := c1.liveWorkers - 1 } else c1

/-- Model of `TelemetryEngine::isRunning`. -/
def isRunning (c : Controller) : Bool := c.engine.running

/-! ## Two engines in one process -/

/-- Two engine instances of one process, with the function-local static `tickCount` of
`pushSimulatedTick` that both of them use. -/
structure TwoEngines where
  tickCount : Int
  first : TelemetryEngine
  second : TelemetryEngine

/-- One tick of the first engine. -/
def TwoEngines.tickFirst (env : TickEnv) (p : TwoEngines) : TwoEngines :=
  { p with
    tickCount := (pushSimulatedTick p.tickCount env p.first).1
    first := (pushSimulatedTick p.tickCount env p.first).2 }

/-- One tick of the second engine. -/
def TwoEngines.tickSecond (env : TickEnv) (p : TwoEngines) : TwoEngines :=
  { p with
    tickCount := (pushSimulatedTick p.tickCount env p.second).1
    second := (pushSimulatedTick p.tickCount env p.second).2 }

/-- The kind of the record that the first engine creates when it ticks next. -/
def TwoEngines.kindOfFirst (env : TickEnv) (p : TwoEngines) : MessageType :=
  (tickRecord p.tickCount env p.first).type

/-- The kind of the record that the second engine creates when it ticks next. -/
def TwoEngines.kindOfSecond (env : TickEnv) (p : TwoEngines) : MessageType :=
  (tickRecord p.tickCount env p.second).type

/-! ## Runs of one engine: ticks interleaved with reads -/

/-- A call made on the engine during a run: a tick of the worker, a `getBatch` of a caller,
or a `getStats` of a caller with the clock reading it takes. -/
inductive EngineOp where
  | tick (env : TickEnv)
  | batch (maxCount : Int)
  | stats (currentTime : Int)

/-- The state (shared tick count, engine) after one call. -/
def applyOp (op : EngineOp) (st : Int × TelemetryEngine) : Int × TelemetryEngine :=
  match op with
  | EngineOp.tick env => pushSimulatedTick st.1 env st.2
  | EngineOp.batch maxCount => (st.1, (getBatch st.2 maxCount).2)
  | EngineOp.stats currentTime => (st.1, (getStats currentTime st.2).2)

/-- The state after the calls of `ops`, first to last. -/
def runOps (ops : List EngineOp) (st : Int × TelemetryEngine) : Int × TelemetryEngine :=
  ops.foldl (fun acc op => applyOp op acc) st

/-- The number of ticks among the calls of `ops`. -/
def ticksOf : List EngineOp → Nat
  | [] => 0
  | EngineOp.tick _ :: ops => ticksOf ops + 1
  | EngineOp.batch _ :: ops => ticksOf ops
  | EngineOp.stats _ :: ops => ticksOf ops

/-! ## Concrete engine states used as test inputs -/

/-- A freshly constructed engine whose write cursor is one slot ahead of the read cursor:
slot 0 holds the one live record. -/
def engineOneLive : TelemetryEngine :=
  { TelemetryEngine.fresh with writeIndex := 1 }

/-- An engine with two live records, slot `i` holding a record with sequence number `i`. -/
def engineTwoLive : TelemetryEngine :=
  { TelemetryEngine.fresh with
    ringBuffer := fun i => { TelemetryMessage.default with seq := i }
    writeIndex := 2 }

/-- An engine whose live records wrap around the end of the array: read cursor 9998, write
cursor 3, slot `i` holding a record with sequence number `i`. -/
def engineWrapped : TelemetryEngine :=
  { TelemetryEngine.fresh with
    ringBuffer := fun i => { TelemetryMessage.default with seq := i }
    writeIndex := 3
    readIndex := 9998 }

/-- A tick input with every reading equal to zero. -/
def TickEnv.zero : TickEnv :=
  { now := 0, draw1 := 0, draw2 := 0, draw3 := 0, sinVal := 0, cosVal := 0 }

/-- The engine that has observed two records created in the same millisecond (clock
reading 5), through `updateStats`. -/
def engineEqualStamps : TelemetryEngine :=
  updateStats { TelemetryMessage.default with timestamp_ms := 5 }
    (updateStats { TelemetryMessage.default with timestamp_ms := 5 } TelemetryEngine.fresh)

/-- The engine that has observed records with the timestamps 0, 1000, 2000, 3000 ms through
`updateStats`. -/
def engineFourStamps : TelemetryEngine :=
  updateStats { TelemetryMessage.default with timestamp_ms := 3000 }
    (updateStats { TelemetryMessage.default with timestamp_ms := 2000 }
      (updateStats { TelemetryMessage.default with timestamp_ms := 1000 }
        (updateStats { TelemetryMessage.default with timestamp_ms := 0 } TelemetryEngine.fresh)))

/-- A record of kind Gps with altitude 120 and timestamp 7000. -/
def gpsRecord : TelemetryMessage :=
  { type := MessageType.GPS, timestamp_ms := 7000, seq := 0,
    data := { MsgData.zero with alt := 120 } }

/-- An engine whose statistics window holds the timestamps 1000, 3000, 6000. -/
def engineThreeStamps : TelemetryEngine :=
  { TelemetryEngine.fresh with recentTimestamps := [1000, 3000, 6000] }

/-- An engine whose simulated battery voltage has reached the floor of 10 V. -/
def engineLowBattery : TelemetryEngine :=
  { TelemetryEngine.fresh with simBatteryVoltage := 10 }

/-- A tick input whose first draw is the lowest value of the battery noise range. -/
def TickEnv.lowNoise : TickEnv :=
  { TickEnv.zero with draw1 := -0.05 }

/-- A controller in the Running state with its one worker. -/
def Controller.runningOne : Controller :=
  { engine := { TelemetryEngine.fresh with running := true }, liveWorkers := 1 }

/-- Two freshly constructed engines in a process that has not ticked yet. -/
def TwoEngines.fresh : TwoEngines :=
  { tickCount := 0, first := TelemetryEngine.fresh, second := TelemetryEngine.fresh }

/-- The process of two fresh engines after the first engine has ticked four times. -/
def TwoEngines.afterFourTicks : TwoEngines :=
  TwoEngines.tickFirst TickEnv.zero (TwoEngines.tickFirst TickEnv.zero
    (TwoEngines.tickFirst TickEnv.zero (TwoEngines.tickFirst TickEnv.zero TwoEngines.fresh)))

/-- An engine that holds 1000 altitude samples, all equal to 50. -/
def engineFullAltitudes : TelemetryEngine :=
  { TelemetryEngine.fresh with recentAltitudes := List.replicate 1000 50 }

/-- A run of three ticks with a `getBatch` and a `getStats` in between. -/
def opsThreeTicks : List EngineOp :=
  [EngineOp.tick TickEnv.zero, EngineOp.batch 5, EngineOp.tick TickEnv.zero,
   EngineOp.stats 100, EngineOp.tick TickEnv.zero]

/-- An engine that holds the altitude samples 100, 120 and the battery-voltage samples
12, 11. -/
def engineTwoSamples : TelemetryEngine :=
  { TelemetryEngine.fresh with
    recentAltitudes := [100, 120]
    recentBatteryVoltages := [12, 11] }

/-! ## Frame lemmas: which members each operation touches -/

@[simp] theorem cleanOldStats_writeIndex (t : Int) (e : TelemetryEngine) :
    (cleanOldStats t e).writeIndex = e.writeIndex := rfl

@[simp] theorem cleanOldStats_readIndex (t : Int) (e : TelemetryEngine) :
    (cleanOldStats t e).readIndex = e.readIndex := rfl

@[simp] theorem cleanOldStats_ringBuffer (t : Int) (e : TelemetryEngine) :
    (cleanOldStats t e).ringBuffer = e.ringBuffer := rfl

@[simp] theorem cleanOldStats_messageSeq (t : Int) (e : TelemetryEngine) :
    (cleanOldStats t e).messageSeq = e.messageSeq := rfl

@[simp] theorem updateStats_writeIndex (m : TelemetryMessage) (e : TelemetryEngine) :
    (updateStats m e).writeIndex = e.writeIndex := by
  unfold updateStats; split_ifs <;> rfl

@[simp] theorem updateStats_readIndex (m : TelemetryMessage) (e : TelemetryEngine) :
    (updateStats m e).readIndex = e.readIndex := by
  unfold updateStats; split_ifs <;> rfl

@[simp] theorem updateStats_ringBuffer (m : TelemetryMessage) (e : TelemetryEngine) :
    (updateStats m e).ringBuffer = e.ringBuffer := by
  unfold updateStats; split_ifs <;> rfl

@[simp] theorem updateStats_messageSeq (m : TelemetryMessage) (e : TelemetryEngine) :
    (updateStats m e).messageSeq = e.messageSeq := by
  unfold updateStats; split_ifs <;> rfl

@[simp] theorem generateMessage_writeIndex (tc : Int) (env : TickEnv) (e : TelemetryEngine) :
    (generateMessage tc env e).2.writeIndex = e.writeIndex := by
  unfold generateMessage; split_ifs <;> rfl

@[simp] theorem generateMessage_readIndex (tc : Int) (env : TickEnv) (e : TelemetryEngine) :
    (generateMessage tc env e).2.readIndex = e.readIndex := by
  unfold generateMessage; split_ifs <;> rfl

@[simp] theorem generateMessage_ringBuffer (tc : Int) (env : TickEnv) (e : TelemetryEngine) :
    (generateMessage tc env e).2.ringBuffer = e.ringBuffer := by
  unfold generateMessage; split_ifs <;> rfl

@[simp] theorem generateMessage_messageSeq (tc : Int) (env : TickEnv) (e : TelemetryEngine) :
    (generateMessage tc env e).2.messageSeq = wrap32 (e.messageSeq + 1) := by
  unfold generateMessage; split_ifs <;> rfl

@[simp] theorem generateMessage_seq (tc : Int) (env : TickEnv) (e : TelemetryEngine) :
    (generateMessage tc env e).1.seq = e.messageSeq := by
  unfold generateMessage; split_ifs <;> rfl

@[simp] theorem storeInRingBuffer_writeIndex (m : TelemetryMessage) (e : TelemetryEngine) :
    (storeInRingBuffer m e).writeIndex = Int.tmod (e.writeIndex + 1) RING_BUFFER_SIZE := by
  simp only [storeInRingBuffer]; split_ifs <;> rfl

theorem storeInRingBuffer_readIndex (m : TelemetryMessage) (e : TelemetryEngine) :
    (storeInRingBuffer m e).readIndex =
      if e.writeIndex = e.readIndex then Int.tmod (e.readIndex + 1) RING_BUFFER_SIZE
      else e.readIndex := by
  simp only [storeInRingBuffer]; split_ifs <;> rfl

@[simp] theorem storeInRingBuffer_ringBuffer (m : TelemetryMessage) (e : TelemetryEngine) :
    (storeInRingBuffer m e).ringBuffer = fun i => if i = e.writeIndex then m else e.ringBuffer i := by
  simp only [storeInRingBuffer]; split_ifs <;> rfl

@[simp] theorem storeInRingBuffer_messageSeq (m : TelemetryMessage) (e : TelemetryEngine) :
    (storeInRingBuffer m e).messageSeq = e.messageSeq := by
  simp only [storeInRingBuffer]; split_ifs <;> rfl

/-- One tick: the write cursor becomes `(old write + 1) % RING_BUFFER_SIZE`. -/
theorem pushSimulatedTick_writeIndex (tc : Int) (env : TickEnv) (e : TelemetryEngine) :
    (pushSimulatedTick tc env e).2.writeIndex = Int.tmod (e.writeIndex + 1) RING_BUFFER_SIZE := by
  simp [pushSimulatedTick]

/-- One tick: the read cursor moves on exactly when it equals the OLD write cursor. -/
theorem pushSimulatedTick_readIndex (tc : Int) (env : TickEnv) (e : TelemetryEngine) :
    (pushSimulatedTick tc env e).2.readIndex =
      if e.writeIndex = e.readIndex then Int.tmod (e.readIndex + 1) RING_BUFFER_SIZE
      else e.readIndex := by
  simp [pushSimulatedTick, storeInRingBuffer_readIndex]

/-- One tick: the created record is stored in the slot at the old write cursor. -/
theorem pushSimulatedTick_slot (tc : Int) (env : TickEnv) (e : TelemetryEngine) :
    (pushSimulatedTick tc env e).2.ringBuffer e.writeIndex = tickRecord tc env e := by
  simp [pushSimulatedTick, tickRecord]

/-- One tick: the sequence counter goes up by one, wrapping at 32 bits. -/
theorem pushSimulatedTick_messageSeq (tc : Int) (env : TickEnv) (e : TelemetryEngine) :
    (pushSimulatedTick tc env e).2.messageSeq = wrap32 (e.messageSeq + 1) := by
  simp [pushSimulatedTick]

/-- With equal cursors `getBatch` finds nothing available. -/
theorem getBatch_nil_of_cursors_eq (e : TelemetryEngine) (maxCount : Int)
    (h : e.writeIndex = e.readIndex) : (getBatch e maxCount).1 = [] := by
  unfold getBatch
  by_cases h1 : maxCount ≤ 0
  · simp [h1]
  · have h2 : min (0 : Int) maxCount = 0 := min_eq_left (by omega)
    simp [h1, h, h2]

/-- Ticks keep equal cursors equal. -/
theorem pushSimulatedTick_cursors_eq (tc : Int) (env : TickEnv) (e : TelemetryEngine)
    (h : e.writeIndex = e.readIndex) :
    (pushSimulatedTick tc env e).2.writeIndex = (pushSimulatedTick tc env e).2.readIndex := by
  rw [pushSimulatedTick_writeIndex, pushSimulatedTick_readIndex, if_pos h, h]

/-- After any number of ticks of an engine that started with equal cursors, the cursors are
equal. -/
theorem runTicks_cursors_eq (envs : Nat → TickEnv) (n : Nat) (st : Int × TelemetryEngine)
    (h : st.2.writeIndex = st.2.readIndex) :
    (runTicks envs n st).2.writeIndex = (runTicks envs n st).2.readIndex := by
  induction n with
  | zero => exact h
  | succ n ih => exact pushSimulatedTick_cursors_eq _ _ _ ih

/-- The count of available records computed by `getBatch` is `(write - read) mod 10000` for
cursors inside the array. -/
theorem available_eq_emod (w r : Int) (hw0 : 0 ≤ w) (hw : w < 10000) (hr0 : 0 ≤ r)
    (hr : r < 10000) :
    (if w ≥ r then w - r else RING_BUFFER_SIZE - r + w) = (w - r) % 10000 := by
  unfold RING_BUFFER_SIZE
  split_ifs <;> omega

/-- The batch returned by `getBatch` for a positive `maxCount`, with the available count
written as a modulus. -/
theorem getBatch_eq_map (e : TelemetryEngine) (maxCount : Int)
    (hw0 : 0 ≤ e.writeIndex) (hw : e.writeIndex < 10000)
    (hr0 : 0 ≤ e.readIndex) (hr : e.readIndex < 10000) (hm : 0 < maxCount) :
    (getBatch e maxCount).1 =
      (List.range (min ((e.writeIndex - e.readIndex) % 10000) maxCount).toNat).map
        (fun i : Nat => e.ringBuffer ((e.readIndex + (i : Int)) % 10000)) := by
  unfold getBatch
  rw [if_neg (by omega)]
  simp only [available_eq_emod _ _ hw0 hw hr0 hr]
  apply List.map_congr_left
  intro i _
  rw [Int.tmod_eq_emod (by omega) (by unfold RING_BUFFER_SIZE; omega)]
  rfl

/-- The engine comes back from `getBatch` as it went in. -/
theorem getBatch_engine (e : TelemetryEngine) (maxCount : Int) : (getBatch e maxCount).2 = e := by
  unfold getBatch
  split_ifs <;> rfl

/-- A larger positive `maxCount` extends the batch: the smaller batch is an initial segment
of the larger one. -/
theorem getBatch_mono (e : TelemetryEngine) (m k : Int) (hm : 0 < m) (hk : m ≤ k) :
    (getBatch e m).1 <+: (getBatch e k).1 := by
  unfold getBatch
  rw [if_neg (by omega), if_neg (by omega)]
  simp only []
  generalize (if e.writeIndex ≥ e.readIndex then e.writeIndex - e.readIndex
      else RING_BUFFER_SIZE - e.readIndex + e.writeIndex) = a
  have hle : (min a m).toNat ≤ (min a k).toNat :=
    Int.toNat_le_toNat (min_le_min_left a hk)
  obtain ⟨d, hd⟩ := Nat.exists_eq_add_of_le hle
  rw [hd, List.range_add, List.map_append]
  exact ⟨_, rfl⟩

/-- The record created by a tick is never a Battery record: a tick count that is a multiple
of 20 is a multiple of 10 and is taken by the Heartbeat branch before. -/
theorem generateMessage_type_ne_battery (tc : Int) (env : TickEnv) (e : TelemetryEngine) :
    (generateMessage tc env e).1.type ≠ MessageType.BATTERY := by
  unfold generateMessage
  split_ifs with h10 h2 h5 h20
  · simp [createHeartbeat]
  · simp [createAttitude]
  · simp [createGps]
  · exfalso
    apply h10
    have d20 : (20 : Int) ∣ tc := Int.dvd_of_tmod_eq_zero h20
    exact Int.tmod_eq_zero_of_dvd (dvd_trans (by decide) d20)
  · simp [createAttitude]

/-- The halving loop never runs out of fuel: any two amounts of fuel that are at least the
length of the range give the same result. -/
theorem lowerBoundAux_fuel (ts : List Int) (cutoff : Int) (f1 : Nat) :
    ∀ (f2 first len : Nat), len ≤ f1 → len ≤ f2 →
      lowerBoundAux ts cutoff f1 first len = lowerBoundAux ts cutoff f2 first len := by
  induction f1 with
  | zero =>
    intro f2 first len h1 _
    have hl : len = 0 := by omega
    subst hl
    cases f2 with
    | zero => rfl
    | succ f2 => simp [lowerBoundAux]
  | succ f1 ih =>
    intro f2 first len h1 h2
    cases f2 with
    | zero =>
      have hl : len = 0 := by omega
      subst hl
      simp [lowerBoundAux]
    | succ f2 =>
      unfold lowerBoundAux
      by_cases hl : len = 0
      · simp [hl]
      · rw [if_neg hl, if_neg hl]
        simp only []
        split_ifs
        · exact ih f2 _ _ (by omega) (by omega)
        · exact ih f2 _ _ (by omega) (by omega)

/-- Wrapping absorbs an earlier wrap under the increment. -/
theorem wrap32_succ_wrap32 (x : Int) : wrap32 (wrap32 x + 1) = wrap32 (x + 1) := by
  unfold wrap32
  omega

/-- Values of the `int32_t` range are left alone by the wrap. -/
theorem wrap32_of_range (x : Int) (h0 : -2147483648 ≤ x) (h1 : x < 2147483648) :
    wrap32 x = x := by
  unfold wrap32
  omega

/-- The sequence counter after `n` ticks of a freshly constructed engine is `n` wrapped to
32 bits. -/
theorem runTicks_messageSeq (envs : Nat → TickEnv) (tc : Int) (n : Nat) :
    (runTicks envs n (tc, TelemetryEngine.fresh)).2.messageSeq = wrap32 (n : Int) := by
  induction n with
  | zero => rfl
  | succ n ih =>
    show (pushSimulatedTick _ _ _).2.messageSeq = _
    rw [pushSimulatedTick_messageSeq, ih, wrap32_succ_wrap32]
    rfl

/-- The record of tick number `k` of a freshly constructed engine carries `k` wrapped to 32
bits as its sequence number. -/
theorem recordOfTick_seq (envs : Nat → TickEnv) (tc : Int) (k : Nat) :
    (recordOfTick envs (tc, TelemetryEngine.fresh) k).seq = wrap32 (k : Int) := by
  unfold recordOfTick tickRecord
  rw [generateMessage_seq]
  exact runTicks_messageSeq envs tc k

/-- The timestamps kept by `updateStats`. -/
theorem updateStats_recentTimestamps (m : TelemetryMessage) (e : TelemetryEngine) :
    (updateStats m e).recentTimestamps =
      (e.recentTimestamps ++ [m.timestamp_ms]).drop
        (lowerBound (e.recentTimestamps ++ [m.timestamp_ms]) (m.timestamp_ms - STATS_WINDOW_MS)) := by
  unfold updateStats
  split_ifs <;> rfl

/-- The rate reported by `getStats` in terms of the timestamps it retains. -/
theorem getStats_rate_hz (t : Int) (e : TelemetryEngine) :
    (getStats t e).1.rate_hz =
      rateOf (getStats t e).2.recentTimestamps
        (wrap32 ((getStats t e).2.recentTimestamps.length : Int)) := by
  simp only [getStats]

/-- The message count reported by `getStats` in terms of the timestamps it retains. -/
theorem getStats_message_count (t : Int) (e : TelemetryEngine) :
    (getStats t e).1.message_count =
      wrap32 ((getStats t e).2.recentTimestamps.length : Int) := by
  simp only [getStats]

/-- The timestamps retained by `getStats`. -/
theorem getStats_recentTimestamps (t : Int) (e : TelemetryEngine) :
    (getStats t e).2.recentTimestamps =
      e.recentTimestamps.drop (lowerBound e.recentTimestamps (t - STATS_WINDOW_MS)) := by
  simp only [getStats, cleanOldStats]

/-- Four timestamps 0, 1000, 2000, 3000 observed from a freshly constructed engine are all
retained by a snapshot taken at a time `t ≤ 5000`. -/
theorem getStats_four_stamps (m0 m1 m2 m3 : TelemetryMessage) (h0 : m0.timestamp_ms = 0)
    (h1 : m1.timestamp_ms = 1000) (h2 : m2.timestamp_ms = 2000) (h3 : m3.timestamp_ms = 3000)
    (t : Int) (ht : t ≤ 5000) :
    (getStats t (updateStats m3 (updateStats m2 (updateStats m1
      (updateStats m0 TelemetryEngine.fresh))))).2.recentTimestamps = [0, 1000, 2000, 3000] := by
  have e0 : (updateStats m0 TelemetryEngine.fresh).recentTimestamps = [0] := by
    rw [updateStats_recentTimestamps, h0]; decide
  have e1 : (updateStats m1 (updateStats m0 TelemetryEngine.fresh)).recentTimestamps =
      [0, 1000] := by
    rw [updateStats_recentTimestamps, e0, h1]; decide
  have e2 : (updateStats m2 (updateStats m1
      (updateStats m0 TelemetryEngine.fresh))).recentTimestamps = [0, 1000, 2000] := by
    rw [updateStats_recentTimestamps, e1, h2]; decide
  have e3 : (updateStats m3 (updateStats m2 (updateStats m1
      (updateStats m0 TelemetryEngine.fresh)))).recentTimestamps = [0, 1000, 2000, 3000] := by
    rw [updateStats_recentTimestamps, e2, h3]; decide
  rw [getStats_recentTimestamps, e3]
  have hb : lowerBound [0, 1000, 2000, 3000] (t - STATS_WINDOW_MS) = 0 := by
    have c2 : ¬ ((2000 : Int) < t - STATS_WINDOW_MS) := by unfold STATS_WINDOW_MS; omega
    have c1 : ¬ ((1000 : Int) < t - STATS_WINDOW_MS) := by unfold STATS_WINDOW_MS; omega
    have c0 : ¬ ((0 : Int) < t - STATS_WINDOW_MS) := by unfold STATS_WINDOW_MS; omega
    simp [lowerBound, lowerBoundAux, c2, c1, c0]
  rw [hb]
  rfl

/-! ## The claims -/

/-- C1 (evaluation of the code at the failing input): one tick of a freshly constructed
engine, whatever the tick count and the readings, stores the created record in slot 0 and
moves the write cursor from 0 to 1, and it also moves the read cursor from 0 to 1,
although the new write cursor (1) differs from the read cursor (0) and the buffer was empty,
not full. -/
theorem pushSimulatedTick_fresh_moves_read_cursor (tickCount : Int) (env : TickEnv) :
    TelemetryEngine.fresh.writeIndex = 0 ∧ TelemetryEngine.fresh.readIndex = 0 ∧
    (pushSimulatedTick tickCount env TelemetryEngine.fresh).2.ringBuffer 0 =
      tickRecord tickCount env TelemetryEngine.fresh ∧
    (pushSimulatedTick tickCount env TelemetryEngine.fresh).2.writeIndex = 1 ∧
    (pushSimulatedTick tickCount env TelemetryEngine.fresh).2.readIndex = 1 := by
  refine ⟨rfl, rfl, pushSimulatedTick_slot tickCount env TelemetryEngine.fresh, ?_, ?_⟩
  · rw [pushSimulatedTick_writeIndex]; decide
  · rw [pushSimulatedTick_readIndex]; decide

/-- C2 (counterexample): with one live record (write cursor 1, read cursor 0),
`getBatch(1)` returns one record and the read cursor afterwards is still 0, not
`(0 + 1) mod 10000`. -/
theorem getBatch_read_cursor_counterexample :
    (getBatch engineOneLive 1).1.length = 1 ∧
    ¬ ((getBatch engineOneLive 1).2.readIndex =
        (engineOneLive.readIndex + ((getBatch engineOneLive 1).1.length : Int)) % 10000) := by
  decide

/-- C2 (amended): for every engine state and every `maxCount`, `getBatch(maxCount)` leaves
the read cursor where it was (and the write cursor and every buffer slot too), whatever the
number of records it returns.  Only `pushSimulatedTick` moves the read cursor: `getStats`,
`start` (when it returns) and `stop` leave it where it was, and a tick moves it on by one
exactly when it equals the old write cursor. -/
theorem getBatch_leaves_cursors (e : TelemetryEngine) (maxCount : Int) :
    (getBatch e maxCount).2.readIndex = e.readIndex ∧
    (getBatch e maxCount).2.writeIndex = e.writeIndex ∧
    (getBatch e maxCount).2.ringBuffer = e.ringBuffer ∧
    (∀ t : Int, (getStats t e).2.readIndex = e.readIndex) ∧
    (∀ (c : Controller) (spawnOk : Bool),
      start spawnOk c = none ∨
      ∃ r c', start spawnOk c = some (r, c') ∧ c'.engine.readIndex = c.engine.readIndex) ∧
    (∀ c : Controller, (stop c).engine.readIndex = c.engine.readIndex) ∧
    (∀ (tc : Int) (env : TickEnv),
      (pushSimulatedTick tc env e).2.readIndex =
        if e.writeIndex = e.readIndex then Int.tmod (e.readIndex + 1) RING_BUFFER_SIZE
        else e.readIndex) := by
  refine ⟨?_, ?_, ?_, ?_, ?_, ?_, ?_⟩
  · unfold getBatch; split_ifs <;> rfl
  · unfold getBatch; split_ifs <;> rfl
  · unfold getBatch; split_ifs <;> rfl
  · intro t
    simp only [getStats, cleanOldStats]
  · intro c spawnOk
    simp only [start]
    split_ifs
    · exact Or.inr ⟨true, c, rfl, rfl⟩
    · exact Or.inl rfl
    · exact Or.inr ⟨true, _, rfl, rfl⟩
    · exact Or.inr ⟨false, _, rfl, rfl⟩
  · intro c
    simp only [stop]
    split_ifs <;> rfl
  · intro tc env
    exact pushSimulatedTick_readIndex tc env e

/-- C3: for cursors in `[0, 10000)` and `maxCount > 0`, `getBatch(maxCount)` returns exactly
`min((write - read) mod 10000, maxCount)` records, never more than are live, and the `i`-th
record returned is the buffer slot `(read + i) mod 10000`. -/
theorem getBatch_returns_oldest_first (e : TelemetryEngine) (maxCount : Int)
    (hw0 : 0 ≤ e.writeIndex) (hw : e.writeIndex < 10000)
    (hr0 : 0 ≤ e.readIndex) (hr : e.readIndex < 10000) (hm : 0 < maxCount) :
    ((getBatch e maxCount).1.length : Int) =
        min ((e.writeIndex - e.readIndex) % 10000) maxCount ∧
    ((getBatch e maxCount).1.length : Int) ≤ (e.writeIndex - e.readIndex) % 10000 ∧
    ∀ i : Nat, i < (getBatch e maxCount).1.length →
      (getBatch e maxCount).1[i]? = some (e.ringBuffer ((e.readIndex + (i : Int)) % 10000)) := by
  rw [getBatch_eq_map e maxCount hw0 hw hr0 hr hm]
  have hlen : (((List.range (min ((e.writeIndex - e.readIndex) % 10000) maxCount).toNat).map
        (fun i : Nat => e.ringBuffer ((e.readIndex + (i : Int)) % 10000))).length : Int) =
      min ((e.writeIndex - e.readIndex) % 10000) maxCount := by
    rw [List.length_map, List.length_range]
    exact Int.toNat_of_nonneg (le_min (Int.emod_nonneg _ (by decide)) hm.le)
  refine ⟨hlen, by rw [hlen]; exact min_le_left _ _, ?_⟩
  intro i hi
  rw [List.length_map, List.length_range] at hi
  rw [List.getElem?_map, List.getElem?_range hi]
  rfl

/-- C3 (witness): the wrapped engine (read cursor 9998, write cursor 3, five live records)
asked for 10 records. -/
theorem getBatch_returns_oldest_first_witness :
    ((getBatch engineWrapped 10).1.length : Int) =
        min ((engineWrapped.writeIndex - engineWrapped.readIndex) % 10000) 10 ∧
    ((getBatch engineWrapped 10).1.length : Int) ≤
        (engineWrapped.writeIndex - engineWrapped.readIndex) % 10000 ∧
    ∀ i : Nat, i < (getBatch engineWrapped 10).1.length →
      (getBatch engineWrapped 10).1[i]? =
        some (engineWrapped.ringBuffer ((engineWrapped.readIndex + (i : Int)) % 10000)) :=
  getBatch_returns_oldest_first engineWrapped 10 (by decide) (by decide) (by decide)
    (by decide) (by decide)

/-- C4 (counterexample): with two live records (sequence numbers 0 and 1) `getBatch(1)`
followed by `getBatch(1)` returns the record of slot 0 both times, so the two batches are
not disjoint and their concatenation is not an initial segment of what `getBatch(2)`
returns. -/
theorem getBatch_twice_counterexample :
    ¬ (List.Disjoint (getBatch engineTwoLive 1).1 (getBatch (getBatch engineTwoLive 1).2 1).1 ∧
       ((getBatch engineTwoLive 1).1 ++ (getBatch (getBatch engineTwoLive 1).2 1).1) <+:
         (getBatch engineTwoLive (1 + 1)).1) := by
  have h1 : (getBatch engineTwoLive 1).1 = [engineTwoLive.ringBuffer 0] := by decide
  have h2 : (getBatch (getBatch engineTwoLive 1).2 1).1 = [engineTwoLive.ringBuffer 0] := by
    decide
  rw [h1, h2]
  rintro ⟨hd, -⟩
  exact hd (List.mem_singleton_self _) (List.mem_singleton_self _)

/-- C4 (amended): for every engine state and all positive `m` and `n`, `getBatch(m)`
followed by `getBatch(n)` with no tick in between returns two sequences each of which is an
initial segment of what a single `getBatch(m + n)` returns from the original state, and the
second call returns exactly what `getBatch(n)` returns from the original state (the records
of the first call are returned again). -/
theorem getBatch_twice_initial_segments (e : TelemetryEngine) (m n : Int) (hm : 0 < m)
    (hn : 0 < n) :
    (getBatch e m).1 <+: (getBatch e (m + n)).1 ∧
    (getBatch (getBatch e m).2 n).1 <+: (getBatch e (m + n)).1 ∧
    (getBatch (getBatch e m).2 n).1 = (getBatch e n).1 := by
  rw [getBatch_engine]
  exact ⟨getBatch_mono e m (m + n) hm (by omega), getBatch_mono e n (m + n) hn (by omega), rfl⟩

/-- C4 (witness): the engine with two live records, `m = 1` and `n = 1`. -/
theorem getBatch_twice_initial_segments_witness :
    (getBatch engineTwoLive 1).1 <+: (getBatch engineTwoLive (1 + 1)).1 ∧
    (getBatch (getBatch engineTwoLive 1).2 1).1 <+: (getBatch engineTwoLive (1 + 1)).1 ∧
    (getBatch (getBatch engineTwoLive 1).2 1).1 = (getBatch engineTwoLive 1).1 :=
  getBatch_twice_initial_segments engineTwoLive 1 1 (by decide) (by decide)

/-- C5 (evaluation of the code at the failing inputs): after `10000 + k` ticks of a freshly
constructed engine, for every `k`, every tick count and all readings, `getBatch(10000)`
returns no record at all (not 9999): write and read cursor are equal. -/
theorem getBatch_after_overwrite_is_empty (envs : Nat → TickEnv) (tickCount : Int) (k : Nat) :
    (getBatch (runTicks envs (10000 + k) (tickCount, TelemetryEngine.fresh)).2 10000).1 = [] :=
  getBatch_nil_of_cursors_eq _ _ (runTicks_cursors_eq envs _ _ rfl)

/-- C6 (evaluation of the code at the failing inputs): after `n` ticks of a freshly
constructed engine, for every `n`, every tick count and all readings, the batch returned by
`getBatch(10000)` has length 0 (not at least 20). -/
theorem getBatch_after_ticks_length_zero (envs : Nat → TickEnv) (tickCount : Int) (n : Nat) :
    (getBatch (runTicks envs n (tickCount, TelemetryEngine.fresh)).2 10000).1.length = 0 := by
  rw [getBatch_nil_of_cursors_eq _ _ (runTicks_cursors_eq envs _ _ rfl)]
  rfl

/-- C7 (evaluation of the code at every input): no tick of any run, whatever the tick count
and the engine it starts from, creates a Battery record, so no run of 20 consecutive ticks
contains all four kinds; the tick that raises the tick count from 19 to 20 creates a
Heartbeat record. -/
theorem recordOfTick_never_battery (envs : Nat → TickEnv) (st : Int × TelemetryEngine)
    (k : Nat) :
    (recordOfTick envs st k).type ≠ MessageType.BATTERY ∧
    ∀ (env : TickEnv) (e : TelemetryEngine), (tickRecord 19 env e).type = MessageType.HEARTBEAT :=
  ⟨generateMessage_type_ne_battery _ _ _, fun _ _ => rfl⟩

/-- C8: for every engine state and every `maxCount ≤ 0`, `getBatch(maxCount)` returns the
empty sequence and the engine (both cursors, every buffer slot) is unchanged. -/
theorem getBatch_nonpositive (e : TelemetryEngine) (maxCount : Int) (h : maxCount ≤ 0) :
    (getBatch e maxCount).1 = [] ∧
    (getBatch e maxCount).2.writeIndex = e.writeIndex ∧
    (getBatch e maxCount).2.readIndex = e.readIndex ∧
    ∀ i : Int, (getBatch e maxCount).2.ringBuffer i = e.ringBuffer i := by
  unfold getBatch
  rw [if_pos h]
  exact ⟨rfl, rfl, rfl, fun _ => rfl⟩

/-- C8 (witness): the engine with two live records asked for `-3` records. -/
theorem getBatch_nonpositive_witness :
    (getBatch engineTwoLive (-3)).1 = [] ∧
    (getBatch engineTwoLive (-3)).2.writeIndex = engineTwoLive.writeIndex ∧
    (getBatch engineTwoLive (-3)).2.readIndex = engineTwoLive.readIndex ∧
    ∀ i : Int, (getBatch engineTwoLive (-3)).2.ringBuffer i = engineTwoLive.ringBuffer i :=
  getBatch_nonpositive engineTwoLive (-3) (by decide)

/-- C9 (counterexample): in the run of a freshly constructed engine the record of tick
number 2147483647 (counted from 0) carries the sequence number 2147483647 and the record of
the next tick carries -2147483648: the later record does not have the larger sequence
number. -/
theorem recordOfTick_seq_counterexample :
    (recordOfTick (fun _ => TickEnv.zero) (0, TelemetryEngine.fresh) 2147483647).seq
      = 2147483647 ∧
    (recordOfTick (fun _ => TickEnv.zero) (0, TelemetryEngine.fresh) 2147483648).seq
      = -2147483648 ∧
    ¬ ((recordOfTick (fun _ => TickEnv.zero) (0, TelemetryEngine.fresh) 2147483647).seq <
       (recordOfTick (fun _ => TickEnv.zero) (0, TelemetryEngine.fresh) 2147483648).seq) := by
  rw [recordOfTick_seq, recordOfTick_seq]
  decide

/-- C9 (amended): among the first 2^31 ticks of an engine (tick numbers `i < j < 2^31`,
counted from 0), whatever the tick count and the readings, the record of tick `i` has a
strictly smaller sequence number than the record of tick `j`, the record of tick `j` carrying
`j`; and every tick of every engine increments `messageSeq` by one modulo 2^32 (two's
complement wrap). -/
theorem recordOfTick_seq_strictly_increasing (envs : Nat → TickEnv) (tickCount : Int)
    (i j : Nat) (hij : i < j) (hj : j < 2147483648) :
    (recordOfTick envs (tickCount, TelemetryEngine.fresh) i).seq <
      (recordOfTick envs (tickCount, TelemetryEngine.fresh) j).seq ∧
    (recordOfTick envs (tickCount, TelemetryEngine.fresh) j).seq = (j : Int) ∧
    ∀ (tc : Int) (env : TickEnv) (e : TelemetryEngine),
      (tickRecord tc env e).seq = e.messageSeq ∧
      (pushSimulatedTick tc env e).2.messageSeq = wrap32 (e.messageSeq + 1) := by
  rw [recordOfTick_seq, recordOfTick_seq, wrap32_of_range _ (by omega) (by omega),
    wrap32_of_range _ (by omega) (by omega)]
  refine ⟨by omega, rfl, fun tc env e => ⟨?_, pushSimulatedTick_messageSeq tc env e⟩⟩
  unfold tickRecord
  rw [generateMessage_seq]

/-- C9 (witness): ticks number 3 and 7 of a freshly constructed engine. -/
theorem recordOfTick_seq_strictly_increasing_witness :
    (recordOfTick (fun _ => TickEnv.zero) (0, TelemetryEngine.fresh) 3).seq <
      (recordOfTick (fun _ => TickEnv.zero) (0, TelemetryEngine.fresh) 7).seq ∧
    (recordOfTick (fun _ => TickEnv.zero) (0, TelemetryEngine.fresh) 7).seq = ((7 : Nat) : Int) ∧
    ∀ (tc : Int) (env : TickEnv) (e : TelemetryEngine),
      (tickRecord tc env e).seq = e.messageSeq ∧
      (pushSimulatedTick tc env e).2.messageSeq = wrap32 (e.messageSeq + 1) :=
  recordOfTick_seq_strictly_increasing (fun _ => TickEnv.zero) 0 3 7 (by decide) (by decide)

/-- C10 (counterexample): after two records created in the same millisecond (timestamps
5 and 5) a snapshot at time 5 retains both timestamps, reports `message_count = 2` and
`rate_hz = 0`; the time span is 0 seconds, so the reported rate is not the message count
divided by the time span (rate times span is 0, not 2). -/
theorem getStats_rate_counterexample :
    (getStats 5 engineEqualStamps).2.recentTimestamps = [5, 5] ∧
    (getStats 5 engineEqualStamps).1.message_count = 2 ∧
    (getStats 5 engineEqualStamps).1.rate_hz = 0 ∧
    ¬ ((getStats 5 engineEqualStamps).1.rate_hz *
        ((((getStats 5 engineEqualStamps).2.recentTimestamps.getLastD 0 -
           (getStats 5 engineEqualStamps).2.recentTimestamps.headD 0 : Int) : ℚ) / 1000) =
       ((getStats 5 engineEqualStamps).1.message_count : ℚ)) := by
  have hts : (getStats 5 engineEqualStamps).2.recentTimestamps = [5, 5] := by decide
  have hc : (getStats 5 engineEqualStamps).1.message_count = 2 := by
    rw [getStats_message_count, hts]; decide
  have hr : (getStats 5 engineEqualStamps).1.rate_hz = 0 := by
    rw [getStats_rate_hz, hts]
    norm_num [rateOf, wrap32]
  refine ⟨hts, hc, hr, ?_⟩
  rw [hr, hc]
  norm_num

/-- C10 (amended): let `ts` be the timestamps retained by `getStats` (fewer than 2^31 of
them, so that `message_count` is their number).  When more than one is retained and the last
is later than the first, `rate_hz` is `message_count` divided by
`((last - first) / 1000)`; when more than one is retained and the last is not later than the
first, `rate_hz` is 0; when at most one is retained, `rate_hz` is 0.  In particular, after
observing the timestamps 0, 1000, 2000, 3000 ms from a fresh engine, a snapshot taken at a
time `t ≤ 5000` (all four inside the window) has `rate_hz = 4 / 3`. -/
theorem getStats_rate (t : Int) (e : TelemetryEngine)
    (hlen : ((getStats t e).2.recentTimestamps.length : Int) < 2147483648) :
    (getStats t e).1.message_count = ((getStats t e).2.recentTimestamps.length : Int) ∧
    (1 < (getStats t e).2.recentTimestamps.length →
      (getStats t e).2.recentTimestamps.headD 0 < (getStats t e).2.recentTimestamps.getLastD 0 →
      (getStats t e).1.rate_hz =
        ((getStats t e).1.message_count : ℚ) /
          ((((getStats t e).2.recentTimestamps.getLastD 0 -
             (getStats t e).2.recentTimestamps.headD 0 : Int) : ℚ) / 1000)) ∧
    (1 < (getStats t e).2.recentTimestamps.length →
      (getStats t e).2.recentTimestamps.getLastD 0 ≤ (getStats t e).2.recentTimestamps.headD 0 →
      (getStats t e).1.rate_hz = 0) ∧
    ((getStats t e).2.recentTimestamps.length ≤ 1 → (getStats t e).1.rate_hz = 0) ∧
    (∀ m0 m1 m2 m3 : TelemetryMessage, m0.timestamp_ms = 0 → m1.timestamp_ms = 1000 →
      m2.timestamp_ms = 2000 → m3.timestamp_ms = 3000 → ∀ now : Int, now ≤ 5000 →
      (getStats now (updateStats m3 (updateStats m2 (updateStats m1
        (updateStats m0 TelemetryEngine.fresh))))).1.rate_hz = 4 / 3) := by
  have hc : (getStats t e).1.message_count =
      ((getStats t e).2.recentTimestamps.length : Int) := by
    rw [getStats_message_count]
    exact wrap32_of_range _ (by omega) hlen
  refine ⟨hc, ?_, ?_, ?_, ?_⟩
  · intro h1 hlt
    rw [hc, getStats_rate_hz, wrap32_of_range _ (by omega) hlen]
    have hpos : (0 : ℚ) < ((((getStats t e).2.recentTimestamps.getLastD 0 -
        (getStats t e).2.recentTimestamps.headD 0 : Int) : ℚ) / 1000) :=
      div_pos (by exact_mod_cast sub_pos.mpr hlt) (by norm_num)
    unfold rateOf
    rw [if_pos (by exact_mod_cast h1)]
    simp only []
    rw [if_pos hpos]
  · intro h1 hle
    rw [getStats_rate_hz, wrap32_of_range _ (by omega) hlen]
    have hnpos : ¬ (0 : ℚ) < ((((getStats t e).2.recentTimestamps.getLastD 0 -
        (getStats t e).2.recentTimestamps.headD 0 : Int) : ℚ) / 1000) := by
      rw [not_lt]
      exact div_nonpos_of_nonpos_of_nonneg (by exact_mod_cast sub_nonpos.mpr hle) (by norm_num)
    unfold rateOf
    rw [if_pos (by exact_mod_cast h1)]
    simp only []
    rw [if_neg hnpos]
  · intro h1
    rw [getStats_rate_hz, wrap32_of_range _ (by omega) hlen]
    unfold rateOf
    rw [if_neg (by omega)]
  · intro m0 m1 m2 m3 h0 h1 h2 h3 now hnow
    rw [getStats_rate_hz, getStats_four_stamps m0 m1 m2 m3 h0 h1 h2 h3 now hnow]
    norm_num [rateOf, wrap32]

/-- C10 (witness): the snapshot at time 3000 of the engine that observed the timestamps
0, 1000, 2000, 3000. -/
theorem getStats_rate_witness :
    ((getStats 3000 engineFourStamps).2.recentTimestamps.length : Int) < 2147483648 ∧
    (getStats 3000 engineFourStamps).1.message_count = 4 ∧
    (getStats 3000 engineFourStamps).1.rate_hz = 4 / 3 :=
  ⟨by decide,
   (getStats_rate 3000 engineFourStamps (by decide)).1.trans (by decide),
   (getStats_rate 3000 engineFourStamps (by decide)).2.2.2.2 _ _ _ _ rfl rfl rfl rfl 3000
     (by decide)⟩

/-! ## The boundary search on a partitioned sequence -/

/-- The halving loop finds the partition point `p` of a sequence whose entries before `p` are
below the cutoff and whose entries from `p` on are not. -/
theorem lowerBoundAux_eq (ts : List Int) (cutoff : Int) (p : Nat)
    (hlt : ∀ i, i < p → ts.getD i 0 < cutoff)
    (hge : ∀ i, p ≤ i → i < ts.length → ¬ ts.getD i 0 < cutoff) (fuel : Nat) :
    ∀ first len : Nat, len ≤ fuel → first ≤ p → p ≤ first + len → first + len ≤ ts.length →
      lowerBoundAux ts cutoff fuel first len = p := by
  induction fuel with
  | zero =>
    intro first len h1 h2 h3 _
    simp only [lowerBoundAux]
    omega
  | succ fuel ih =>
    intro first len h1 h2 h3 h4
    unfold lowerBoundAux
    by_cases hl : len = 0
    · rw [if_pos hl]; omega
    · rw [if_neg hl]
      simp only []
      by_cases hmid : ts.getD (first + len / 2) 0 < cutoff
      · rw [if_pos hmid]
        have hp : first + len / 2 < p := by
          by_contra hcon
          exact hge (first + len / 2) (by omega) (by omega) hmid
        exact ih _ _ (by omega) (by omega) (by omega) (by omega)
      · rw [if_neg hmid]
        have hp : p ≤ first + len / 2 := by
          by_contra hcon
          exact hmid (hlt (first + len / 2) (by omega))
        exact ih _ _ (by omega) (by omega) (by omega) (by omega)

/-- On a sequence made of entries below the cutoff followed by entries not below it, the
boundary search returns the length of the first part. -/
theorem lowerBound_append (a b : List Int) (cutoff : Int) (ha : ∀ x ∈ a, x < cutoff)
    (hb : ∀ x ∈ b, ¬ x < cutoff) : lowerBound (a ++ b) cutoff = a.length := by
  unfold lowerBound
  apply lowerBoundAux_eq (a ++ b) cutoff a.length
  · intro i hi
    rw [List.getD_eq_getElem _ _ (by rw [List.length_append]; omega),
      List.getElem_append_left hi]
    exact ha _ (List.getElem_mem _)
  · intro i hi hlen
    rw [List.getD_eq_getElem _ _ hlen, List.getElem_append_right hi]
    exact hb _ (List.getElem_mem _)
  · exact Nat.le_refl _
  · omega
  · rw [List.length_append]; omega
  · omega

/-- A non-decreasing sequence is its entries below the cutoff followed by its entries not
below the cutoff. -/
theorem sorted_split (ts : List Int) (cutoff : Int) (h : ts.Sorted (· ≤ ·)) :
    ts = ts.filter (fun x => decide (x < cutoff)) ++
      ts.filter (fun x => decide (cutoff ≤ x)) := by
  induction ts with
  | nil => rfl
  | cons x l ih =>
    have hl : l.Sorted (· ≤ ·) := (List.sorted_cons.mp h).2
    have hx : ∀ y ∈ l, x ≤ y := (List.sorted_cons.mp h).1
    by_cases hc : x < cutoff
    · have hc' : ¬ cutoff ≤ x := by omega
      rw [List.filter_cons_of_pos (by simpa using hc),
        List.filter_cons_of_neg (by simpa using hc'), List.cons_append, ← ih hl]
    · have hc' : cutoff ≤ x := by omega
      have h1 : l.filter (fun y => decide (y < cutoff)) = [] := by
        rw [List.filter_eq_nil_iff]
        intro y hy
        have := hx y hy
        simp only [decide_eq_true_eq]
        omega
      have h2 : l.filter (fun y => decide (cutoff ≤ y)) = l := by
        rw [List.filter_eq_self]
        intro y hy
        have := hx y hy
        simp only [decide_eq_true_eq]
        omega
      rw [List.filter_cons_of_neg (by simpa using hc),
        List.filter_cons_of_pos (by simpa using hc'), h1, h2]
      rfl

/-- Pruning a non-decreasing sequence with the boundary search keeps exactly the entries that
are not below the cutoff. -/
theorem drop_lowerBound_sorted (ts : List Int) (cutoff : Int) (h : ts.Sorted (· ≤ ·)) :
    ts.drop (lowerBound ts cutoff) = ts.filter (fun x => decide (cutoff ≤ x)) := by
  have hs := sorted_split ts cutoff h
  have hb : lowerBound ts cutoff = (ts.filter (fun x => decide (x < cutoff))).length := by
    conv_lhs => rw [hs]
    apply lowerBound_append
    · intro x hx
      simpa using (List.mem_filter.mp hx).2
    · intro x hx
      have := (List.mem_filter.mp hx).2
      simp only [decide_eq_true_eq] at this
      omega
  rw [hb]
  have hd := List.drop_left (ts.filter (fun x => decide (x < cutoff)))
    (ts.filter (fun x => decide (cutoff ≤ x)))
  rwa [← hs] at hd

/-! ## Statistics window: pruning and sample sequences -/

/-- The timestamps kept by `updateStats` for a non-decreasing sequence are the entries of the
extended sequence that are not older than the record's timestamp minus the window. -/
theorem updateStats_recentTimestamps_sorted (m : TelemetryMessage) (e : TelemetryEngine)
    (hs : (e.recentTimestamps ++ [m.timestamp_ms]).Sorted (· ≤ ·)) :
    (updateStats m e).recentTimestamps =
      (e.recentTimestamps ++ [m.timestamp_ms]).filter
        (fun x => decide (m.timestamp_ms - 5000 ≤ x)) := by
  rw [updateStats_recentTimestamps]
  exact drop_lowerBound_sorted _ _ hs

/-- Whatever the order of the timestamps, what `updateStats` keeps is a final segment of the
old sequence extended by the record's timestamp. -/
theorem updateStats_recentTimestamps_suffix (m : TelemetryMessage) (e : TelemetryEngine) :
    (updateStats m e).recentTimestamps <:+ e.recentTimestamps ++ [m.timestamp_ms] := by
  rw [updateStats_recentTimestamps]
  exact List.drop_suffix _ _

/-- What is retained after observing the records `ms` is a final segment of the old
timestamps followed by the timestamps of `ms`. -/
theorem observeAll_recentTimestamps_suffix (ms : List TelemetryMessage) :
    ∀ e : TelemetryEngine,
      (observeAll ms e).recentTimestamps <:+
        e.recentTimestamps ++ ms.map (fun m => m.timestamp_ms) := by
  induction ms with
  | nil =>
    intro e
    simp [observeAll]
  | cons m ms ih =>
    intro e
    have h1 := ih (updateStats m e)
    obtain ⟨pre, hpre⟩ := updateStats_recentTimestamps_suffix m e
    have h2 : (updateStats m e).recentTimestamps ++ ms.map (fun m => m.timestamp_ms) <:+
        e.recentTimestamps ++ (m :: ms).map (fun m => m.timestamp_ms) := by
      refine ⟨pre, ?_⟩
      rw [← List.append_assoc, hpre]
      simp
    exact h1.trans h2

/-- The 32-bit wrap of a non-negative number does not exceed the number. -/
theorem wrap32_le_of_nonneg (x : Int) (h : 0 ≤ x) : wrap32 x ≤ x := by
  unfold wrap32
  omega

/-- The altitude samples after `updateStats`: the record's altitude is appended for a Gps
record, then the cap is applied. -/
theorem updateStats_recentAltitudes (m : TelemetryMessage) (e : TelemetryEngine) :
    (updateStats m e).recentAltitudes =
      capSamples (if m.type = MessageType.GPS then e.recentAltitudes ++ [m.data.alt]
        else e.recentAltitudes) := by
  unfold updateStats
  split_ifs <;> rfl

/-- The voltage samples after `updateStats`: the record's voltage is appended for a Battery
record, then the cap is applied. -/
theorem updateStats_recentBatteryVoltages (m : TelemetryMessage) (e : TelemetryEngine) :
    (updateStats m e).recentBatteryVoltages =
      capSamples (if m.type = MessageType.BATTERY then
        e.recentBatteryVoltages ++ [m.data.voltage] else e.recentBatteryVoltages) := by
  unfold updateStats
  split_ifs <;> rfl

/-- The cap keeps at most `MAX_SIZE` entries. -/
theorem capSamples_length_le (xs : List ℚ) : (capSamples xs).length ≤ 1000 := by
  unfold capSamples MAX_SIZE
  split_ifs with h
  · rw [List.length_drop]; omega
  · omega

/-- The cap leaves a sequence of at most `MAX_SIZE` entries alone. -/
theorem capSamples_of_le (xs : List ℚ) (h : xs.length ≤ 1000) : capSamples xs = xs := by
  unfold capSamples MAX_SIZE
  rw [if_neg (by omega)]

/-- The cap cuts a longer sequence down to its last `MAX_SIZE` entries. -/
theorem capSamples_of_gt (xs : List ℚ) (h : 1000 < xs.length) :
    capSamples xs = xs.drop (xs.length - 1000) ∧ (capSamples xs).length = 1000 := by
  unfold capSamples MAX_SIZE
  rw [if_pos h]
  exact ⟨rfl, by rw [List.length_drop]; omega⟩

/-- The running sum of the averaging loop is the sum of the sequence. -/
theorem foldl_add_eq_sum (xs : List ℚ) :
    ∀ acc : ℚ, xs.foldl (fun sum x => sum + x) acc = acc + xs.sum := by
  induction xs with
  | nil => intro acc; simp
  | cons x l ih => intro acc; rw [List.foldl_cons, ih, List.sum_cons]; ring

/-- The mean computed by `getStats` is the sum divided by the length, and 0 for the empty
sequence. -/
theorem averageOf_eq (xs : List ℚ) :
    averageOf xs = if xs = [] then 0 else xs.sum / (xs.length : ℚ) := by
  unfold averageOf
  cases xs with
  | nil => rfl
  | cons x l =>
    rw [if_neg (by simp), if_neg (by simp), foldl_add_eq_sum, zero_add]

/-! ## The claims on the statistics window -/

/-- C11: when the timestamps held before, followed by the timestamp of the observed record,
are non-decreasing, the timestamps retained after `updateStats` (which prunes through
`cleanOldStats`) are exactly the final segment of that sequence made of the values
`≥ record timestamp - 5000`: everything dropped is older, everything kept is not.  The
record's own timestamp is the latest one retained, the oldest one retained is
`≥ latest - 5000`, and the retained sequence is non-decreasing. -/
theorem updateStats_prunes_window (m : TelemetryMessage) (e : TelemetryEngine)
    (hs : (e.recentTimestamps ++ [m.timestamp_ms]).Sorted (· ≤ ·)) :
    (updateStats m e).recentTimestamps =
      (e.recentTimestamps ++ [m.timestamp_ms]).filter
        (fun x => decide (m.timestamp_ms - 5000 ≤ x)) ∧
    (updateStats m e).recentTimestamps <:+ e.recentTimestamps ++ [m.timestamp_ms] ∧
    e.recentTimestamps ++ [m.timestamp_ms] =
      (e.recentTimestamps ++ [m.timestamp_ms]).filter
        (fun x => decide (x < m.timestamp_ms - 5000)) ++ (updateStats m e).recentTimestamps ∧
    (∀ x ∈ (updateStats m e).recentTimestamps, m.timestamp_ms - 5000 ≤ x) ∧
    (updateStats m e).recentTimestamps.getLast? = some m.timestamp_ms ∧
    (∃ oldest, (updateStats m e).recentTimestamps.head? = some oldest ∧
      m.timestamp_ms - 5000 ≤ oldest) ∧
    (updateStats m e).recentTimestamps.Sorted (· ≤ ·) := by
  have hR := updateStats_recentTimestamps_sorted m e hs
  have hmem : ∀ x ∈ (updateStats m e).recentTimestamps, m.timestamp_ms - 5000 ≤ x := by
    intro x hx
    rw [hR] at hx
    simpa using (List.mem_filter.mp hx).2
  have hlast : (updateStats m e).recentTimestamps.getLast? = some m.timestamp_ms := by
    rw [hR, List.filter_append, List.filter_cons_of_pos (by simp), List.filter_nil]
    simp
  refine ⟨hR, updateStats_recentTimestamps_suffix m e, ?_, hmem, hlast, ?_, ?_⟩
  · rw [hR]
    exact sorted_split _ _ hs
  · cases hc : (updateStats m e).recentTimestamps with
    | nil => rw [hc] at hlast; simp at hlast
    | cons x l =>
      exact ⟨x, rfl, hmem x (by rw [hc]; exact List.mem_cons_self _ _)⟩
  · rw [hR]
    exact List.Pairwise.filter _ hs

/-- C11 (witness): the window holds 1000, 3000, 6000 and a record with timestamp 7000 is
observed; 1000 is dropped. -/
theorem updateStats_prunes_window_witness :
    (engineThreeStamps.recentTimestamps ++ [gpsRecord.timestamp_ms]).Sorted (· ≤ ·) ∧
    (updateStats gpsRecord engineThreeStamps).recentTimestamps = [3000, 6000, 7000] :=
  ⟨by decide,
   (updateStats_prunes_window gpsRecord engineThreeStamps (by decide)).1.trans (by decide)⟩

/-- C12: after observing, from a freshly constructed engine, any records whose timestamps are
non-decreasing, the `message_count` of a snapshot taken at any time `now` does not exceed
the number of observed timestamps `t` with `t ≥ now - 5000`. -/
theorem getStats_message_count_le (ms : List TelemetryMessage) (now : Int)
    (hs : (ms.map (fun m => m.timestamp_ms)).Sorted (· ≤ ·)) :
    (getStats now (observeAll ms TelemetryEngine.fresh)).1.message_count ≤
      (((ms.map (fun m => m.timestamp_ms)).filter
        (fun t => decide (now - 5000 ≤ t))).length : Int) := by
  have hsuf : (observeAll ms TelemetryEngine.fresh).recentTimestamps <:+
      ms.map (fun m => m.timestamp_ms) := by
    simpa [TelemetryEngine.fresh] using observeAll_recentTimestamps_suffix ms TelemetryEngine.fresh
  have hsorted : (observeAll ms TelemetryEngine.fresh).recentTimestamps.Sorted (· ≤ ·) :=
    List.Pairwise.sublist hsuf.sublist hs
  have hkept : (getStats now (observeAll ms TelemetryEngine.fresh)).2.recentTimestamps =
      (observeAll ms TelemetryEngine.fresh).recentTimestamps.filter
        (fun t => decide (now - 5000 ≤ t)) := by
    rw [getStats_recentTimestamps]
    exact drop_lowerBound_sorted _ _ hsorted
  have hlen : (getStats now (observeAll ms TelemetryEngine.fresh)).2.recentTimestamps.length ≤
      ((ms.map (fun m => m.timestamp_ms)).filter
        (fun t => decide (now - 5000 ≤ t))).length := by
    rw [hkept]
    exact (hsuf.sublist.filter _).length_le
  rw [getStats_message_count]
  exact le_trans (wrap32_le_of_nonneg _ (by omega)) (by exact_mod_cast hlen)

/-- C12 (witness): three records with the timestamps 0, 3000, 6000 and a snapshot at 7000. -/
theorem getStats_message_count_le_witness :
    (getStats 7000 (observeAll
        [{ TelemetryMessage.default with timestamp_ms := 0 },
         { TelemetryMessage.default with timestamp_ms := 3000 },
         { TelemetryMessage.default with timestamp_ms := 6000 }]
        TelemetryEngine.fresh)).1.message_count ≤ 2 :=
  getStats_message_count_le
    [{ TelemetryMessage.default with timestamp_ms := 0 },
     { TelemetryMessage.default with timestamp_ms := 3000 },
     { TelemetryMessage.default with timestamp_ms := 6000 }] 7000 (by decide)

/-- C13: after every `updateStats` and every `getStats` call, from any state, the altitude
samples and the battery-voltage samples each hold at most 1000 entries; and whenever the
sequence that the call has to cap (the old samples, with the new sample appended when the
record carries one) is longer than 1000, what is kept is its last 1000 entries in their
order. -/
theorem sample_sequences_capped (m : TelemetryMessage) (t : Int) (e : TelemetryEngine) :
    ((updateStats m e).recentAltitudes.length ≤ 1000 ∧
     (updateStats m e).recentBatteryVoltages.length ≤ 1000 ∧
     (getStats t e).2.recentAltitudes.length ≤ 1000 ∧
     (getStats t e).2.recentBatteryVoltages.length ≤ 1000) ∧
    (∀ ins : List ℚ,
      ins = (if m.type = MessageType.GPS then e.recentAltitudes ++ [m.data.alt]
        else e.recentAltitudes) → 1000 < ins.length →
      (updateStats m e).recentAltitudes = ins.drop (ins.length - 1000) ∧
      (updateStats m e).recentAltitudes.length = 1000) ∧
    (∀ ins : List ℚ,
      ins = (if m.type = MessageType.BATTERY then e.recentBatteryVoltages ++ [m.data.voltage]
        else e.recentBatteryVoltages) → 1000 < ins.length →
      (updateStats m e).recentBatteryVoltages = ins.drop (ins.length - 1000) ∧
      (updateStats m e).recentBatteryVoltages.length = 1000) ∧
    (1000 < e.recentAltitudes.length →
      (getStats t e).2.recentAltitudes =
        e.recentAltitudes.drop (e.recentAltitudes.length - 1000) ∧
      (getStats t e).2.recentAltitudes.length = 1000) ∧
    (1000 < e.recentBatteryVoltages.length →
      (getStats t e).2.recentBatteryVoltages =
        e.recentBatteryVoltages.drop (e.recentBatteryVoltages.length - 1000) ∧
      (getStats t e).2.recentBatteryVoltages.length = 1000) := by
  have ga : (getStats t e).2.recentAltitudes = capSamples e.recentAltitudes := by
    simp only [getStats, cleanOldStats]
  have gv : (getStats t e).2.recentBatteryVoltages = capSamples e.recentBatteryVoltages := by
    simp only [getStats, cleanOldStats]
  refine ⟨⟨?_, ?_, ?_, ?_⟩, ?_, ?_, ?_, ?_⟩
  · rw [updateStats_recentAltitudes]; exact capSamples_length_le _
  · rw [updateStats_recentBatteryVoltages]; exact capSamples_length_le _
  · rw [ga]; exact capSamples_length_le _
  · rw [gv]; exact capSamples_length_le _
  · intro ins hins hlen
    rw [updateStats_recentAltitudes, ← hins]
    exact capSamples_of_gt ins hlen
  · intro ins hins hlen
    rw [updateStats_recentBatteryVoltages, ← hins]
    exact capSamples_of_gt ins hlen
  · intro hlen
    rw [ga]
    exact capSamples_of_gt _ hlen
  · intro hlen
    rw [gv]
    exact capSamples_of_gt _ hlen

/-- C13 (witness): a Gps record with altitude 120 observed by an engine that already holds
1000 altitude samples (all 50): the 1001 samples are cut down to the last 1000. -/
theorem sample_sequences_capped_witness :
    1000 < (List.replicate 1000 (50 : ℚ) ++ [120]).length ∧
    (updateStats gpsRecord engineFullAltitudes).recentAltitudes =
      (List.replicate 1000 (50 : ℚ) ++ [120]).drop
        ((List.replicate 1000 (50 : ℚ) ++ [120]).length - 1000) ∧
    (updateStats gpsRecord engineFullAltitudes).recentAltitudes.length = 1000 :=
  have hlen : 1000 < (List.replicate 1000 (50 : ℚ) ++ [120]).length := by
    rw [List.length_append, List.length_replicate]; decide
  ⟨hlen, (sample_sequences_capped gpsRecord 0 engineFullAltitudes).2.1
    (List.replicate 1000 (50 : ℚ) ++ [120]) rfl hlen⟩

/-- C14: for every state `e`, the altitude samples retained by `getStats` are the samples
of `e` (cut down to the last 1000 when there are more), and likewise the battery-voltage
samples; `getStats` reports as `avg_altitude` the sum of the retained altitude samples
divided by their number, as `avg_batt_v` the sum of the retained battery-voltage samples
divided by their number, and 0 for a sequence that is empty. -/
theorem getStats_averages (t : Int) (e : TelemetryEngine) :
    (getStats t e).2.recentAltitudes =
      (if 1000 < e.recentAltitudes.length then
        e.recentAltitudes.drop (e.recentAltitudes.length - 1000)
       else e.recentAltitudes) ∧
    (getStats t e).2.recentBatteryVoltages =
      (if 1000 < e.recentBatteryVoltages.length then
        e.recentBatteryVoltages.drop (e.recentBatteryVoltages.length - 1000)
       else e.recentBatteryVoltages) ∧
    (getStats t e).1.avg_altitude =
      (if (if 1000 < e.recentAltitudes.length then
            e.recentAltitudes.drop (e.recentAltitudes.length - 1000)
           else e.recentAltitudes) = [] then 0
       else (if 1000 < e.recentAltitudes.length then
              e.recentAltitudes.drop (e.recentAltitudes.length - 1000)
             else e.recentAltitudes).sum /
         (((if 1000 < e.recentAltitudes.length then
              e.recentAltitudes.drop (e.recentAltitudes.length - 1000)
            else e.recentAltitudes).length : Nat) : ℚ)) ∧
    (getStats t e).1.avg_batt_v =
      (if (if 1000 < e.recentBatteryVoltages.length then
            e.recentBatteryVoltages.drop (e.recentBatteryVoltages.length - 1000)
           else e.recentBatteryVoltages) = [] then 0
       else (if 1000 < e.recentBatteryVoltages.length then
              e.recentBatteryVoltages.drop (e.recentBatteryVoltages.length - 1000)
             else e.recentBatteryVoltages).sum /
         (((if 1000 < e.recentBatteryVoltages.length then
              e.recentBatteryVoltages.drop (e.recentBatteryVoltages.length - 1000)
            else e.recentBatteryVoltages).length : Nat) : ℚ)) ∧
    (getStats t e).1.avg_altitude =
      (if (getStats t e).2.recentAltitudes = [] then 0
       else (getStats t e).2.recentAltitudes.sum /
         ((getStats t e).2.recentAltitudes.length : ℚ)) ∧
    (getStats t e).1.avg_batt_v =
      (if (getStats t e).2.recentBatteryVoltages = [] then 0
       else (getStats t e).2.recentBatteryVoltages.sum /
         ((getStats t e).2.recentBatteryVoltages.length : ℚ)) := by
  have hcap : ∀ xs : List ℚ,
      capSamples xs = (if 1000 < xs.length then xs.drop (xs.length - 1000) else xs) := by
    intro xs
    rfl
  have ha : (getStats t e).2.recentAltitudes = capSamples e.recentAltitudes := by
    simp only [getStats, cleanOldStats]
  have hv : (getStats t e).2.recentBatteryVoltages = capSamples e.recentBatteryVoltages := by
    simp only [getStats, cleanOldStats]
  have hva : (getStats t e).1.avg_altitude = averageOf (capSamples e.recentAltitudes) := by
    simp only [getStats, cleanOldStats]
  have hvv : (getStats t e).1.avg_batt_v = averageOf (capSamples e.recentBatteryVoltages) := by
    simp only [getStats, cleanOldStats]
  refine ⟨?_, ?_, ?_, ?_, ?_, ?_⟩
  · rw [ha, hcap]
  · rw [hv, hcap]
  · rw [hva, averageOf_eq, hcap]
  · rw [hvv, averageOf_eq, hcap]
  · rw [hva, averageOf_eq, ha]
  · rw [hvv, averageOf_eq, hv]

/-- C14 (evaluation at a concrete state): with the altitude samples 100, 120 and the
battery-voltage samples 12, 11 `getStats` reports `avg_altitude = 110` and
`avg_batt_v = 23 / 2`; for a freshly constructed engine, without samples, it reports 0 for
both. -/
theorem getStats_averages_witness :
    (getStats 0 engineTwoSamples).1.avg_altitude = 110 ∧
    (getStats 0 engineTwoSamples).1.avg_batt_v = 23 / 2 ∧
    (getStats 0 TelemetryEngine.fresh).1.avg_altitude = 0 ∧
    (getStats 0 TelemetryEngine.fresh).1.avg_batt_v = 0 :=
  ⟨(getStats_averages 0 engineTwoSamples).2.2.1.trans
      (by simp only [engineTwoSamples]; norm_num; exact List.cons_ne_nil _ _),
   (getStats_averages 0 engineTwoSamples).2.2.2.1.trans
      (by simp only [engineTwoSamples]; norm_num; exact List.cons_ne_nil _ _),
   (getStats_averages 0 TelemetryEngine.fresh).2.2.1.trans
      (by norm_num [TelemetryEngine.fresh]),
   (getStats_averages 0 TelemetryEngine.fresh).2.2.2.1.trans
      (by norm_num [TelemetryEngine.fresh])⟩

/-- C15: in a state with fewer than 1000 samples in each sample sequence, `updateStats`
appends the record's altitude to the altitude samples exactly when the record is a Gps
record and its voltage to the voltage samples exactly when it is a Battery record, and
leaves each sequence unchanged otherwise, whatever the timestamps are. -/
theorem updateStats_samples (m : TelemetryMessage) (e : TelemetryEngine)
    (ha : e.recentAltitudes.length < 1000) (hv : e.recentBatteryVoltages.length < 1000) :
    (updateStats m e).recentAltitudes =
      (if m.type = MessageType.GPS then e.recentAltitudes ++ [m.data.alt]
       else e.recentAltitudes) ∧
    (updateStats m e).recentBatteryVoltages =
      (if m.type = MessageType.BATTERY then e.recentBatteryVoltages ++ [m.data.voltage]
       else e.recentBatteryVoltages) := by
  constructor
  · rw [updateStats_recentAltitudes]
    apply capSamples_of_le
    split_ifs
    · rw [List.length_append, List.length_singleton]; omega
    · omega
  · rw [updateStats_recentBatteryVoltages]
    apply capSamples_of_le
    split_ifs
    · rw [List.length_append, List.length_singleton]; omega
    · omega

/-- C15 (witness): a Gps record with altitude 120 observed by a freshly constructed
engine. -/
theorem updateStats_samples_witness :
    (updateStats gpsRecord TelemetryEngine.fresh).recentAltitudes = [120] ∧
    (updateStats gpsRecord TelemetryEngine.fresh).recentBatteryVoltages = [] :=
  updateStats_samples gpsRecord TelemetryEngine.fresh (by decide) (by decide)

/-! ## Lifecycle, battery record and shared tick count -/

/-- The kind of the record created for a tick count does not depend on the readings or on
the engine. -/
theorem generateMessage_type_congr (tc : Int) (env env' : TickEnv) (e e' : TelemetryEngine) :
    (generateMessage tc env e).1.type = (generateMessage tc env' e').1.type := by
  unfold generateMessage
  split_ifs <;> rfl

/-- A tick leaves the shared tick count one higher (wrapped to 32 bits). -/
theorem pushSimulatedTick_tickCount (tc : Int) (env : TickEnv) (e : TelemetryEngine) :
    (pushSimulatedTick tc env e).1 = wrap32 (tc + 1) := by
  simp only [pushSimulatedTick]

/-- Clearing a `running` flag that is already clear changes nothing. -/
theorem controller_clear_running (c : Controller) (h : c.engine.running = false) :
    ({ c with engine := { c.engine with running := false } } : Controller) = c := by
  obtain ⟨eng, w⟩ := c
  obtain ⟨rb, wi, ri, run, ts, al, bv, sq, st, ar, sv, sa, sl, so⟩ := eng
  simp only at h
  subst h
  rfl

/-- C16: on a Running engine `start` returns success and leaves the state as it is (no
worker is created); so from a Stopped engine without worker, a `start` that creates its
worker followed by a second `start` both return success and leave exactly one live worker
in the Running state; on a Stopped engine, never started or not, `stop` changes nothing. -/
theorem start_stop_idempotent (c : Controller) (spawnOk : Bool) :
    (c.engine.running = true → start spawnOk c = some (true, c)) ∧
    (c.engine.running = false → c.liveWorkers = 0 →
      ∃ c1, start true c = some (true, c1) ∧ start spawnOk c1 = some (true, c1) ∧
        c1.liveWorkers = 1 ∧ isRunning c1 = true) ∧
    (c.engine.running = false → stop c = c) := by
  refine ⟨?_, ?_, ?_⟩
  · intro h
    simp [start, h]
  · intro h hw
    refine ⟨{ engine := { c.engine with running := true }, liveWorkers := 1 }, ?_, ?_, rfl, rfl⟩
    · simp [start, h, hw]
    · simp [start]
  · intro h
    simp [stop, h]

/-- C16 (witness): `start` on a Running controller with one worker, and two `start` calls
and a `stop` on the controller of a freshly constructed engine. -/
theorem start_stop_idempotent_witness :
    start false Controller.runningOne = some (true, Controller.runningOne) ∧
    (∃ c1, start true Controller.fresh = some (true, c1) ∧ start true c1 = some (true, c1) ∧
        c1.liveWorkers = 1 ∧ isRunning c1 = true) ∧
    stop Controller.fresh = Controller.fresh :=
  ⟨(start_stop_idempotent Controller.runningOne false).1 rfl,
   (start_stop_idempotent Controller.fresh true).2.1 rfl rfl,
   (start_stop_idempotent Controller.fresh true).2.2 rfl⟩

/-- C17: from a Running state, or a Stopped state without worker, `start` returns; it returns
failure exactly when it tries to create the worker (the engine is not running) and the
creation fails; then the state is the Stopped state it started from (`isRunning` false, no
worker) and a later `start` whose creation works returns success with one worker; in every
other case `start` returns success and `isRunning` is true. -/
theorem start_failure (c : Controller) (spawnOk : Bool)
    (hwf : c.engine.running = false → c.liveWorkers = 0) :
    ∃ r c', start spawnOk c = some (r, c') ∧
      (r = false ↔ (c.engine.running = false ∧ spawnOk = false)) ∧
      (r = false → isRunning c' = false ∧ c'.liveWorkers = 0 ∧ c' = c ∧
        ∃ c'', start true c' = some (true, c'') ∧ isRunning c'' = true ∧
          c''.liveWorkers = 1) ∧
      (r = true → isRunning c' = true) := by
  by_cases hr : c.engine.running = true
  · exact ⟨true, c, by simp [start, hr], by simp [hr], by simp, fun _ => hr⟩
  · have hr' : c.engine.running = false := by simpa using hr
    have hw := hwf hr'
    cases spawnOk with
    | true =>
      exact ⟨true, { engine := { c.engine with running := true }, liveWorkers := 1 },
        by simp [start, hr', hw], by simp, by simp, fun _ => rfl⟩
    | false =>
      refine ⟨false, c, ?_, by simp [hr'], ?_, by simp⟩
      · simp only [start, hr']
        simp [controller_clear_running c hr']
      · intro _
        exact ⟨hr', hw, rfl,
          { engine := { c.engine with running := true }, liveWorkers := 1 },
          by simp [start, hr', hw], rfl, rfl⟩

/-- C17 (witness): `start` on the controller of a freshly constructed engine when the worker
cannot be created. -/
theorem start_failure_witness :
    ∃ r c', start false Controller.fresh = some (r, c') ∧
      (r = false ↔ (Controller.fresh.engine.running = false ∧ false = false)) ∧
      (r = false → isRunning c' = false ∧ c'.liveWorkers = 0 ∧ c' = Controller.fresh ∧
        ∃ c'', start true c' = some (true, c'') ∧ isRunning c'' = true ∧
          c''.liveWorkers = 1) ∧
      (r = true → isRunning c' = true) :=
  start_failure Controller.fresh false (fun _ => rfl)

/-- C18 (counterexample): with the simulated battery voltage at its floor of 10 V and the
noise value -0.05, which lies in the range `[-0.05, 0.05)`, the voltage field of the record
produced by `createBattery` is 9.95, below 10. -/
theorem createBattery_voltage_counterexample :
    (-0.05 : ℚ) ≤ TickEnv.lowNoise.draw1 ∧ TickEnv.lowNoise.draw1 < 0.05 ∧
    (createBattery TickEnv.lowNoise engineLowBattery).1.data.voltage = 9.95 ∧
    ¬ ((createBattery TickEnv.lowNoise engineLowBattery).1.data.voltage ≥ 10) := by
  norm_num [createBattery, TickEnv.lowNoise, TickEnv.zero, engineLowBattery,
    TelemetryEngine.fresh]

/-- C18 (amended): for every simulation state and every noise value `≥ -0.05`, the simulated
battery voltage that `createBattery` leaves in the engine is `≥ 10`, and the voltage field
of the Battery record, which is that value plus the noise, is `≥ 9.95`. -/
theorem createBattery_voltage_bounds (env : TickEnv) (e : TelemetryEngine)
    (hnoise : (-0.05 : ℚ) ≤ env.draw1) :
    (createBattery env e).1.type = MessageType.BATTERY ∧
    (createBattery env e).2.simBatteryVoltage ≥ 10 ∧
    (createBattery env e).1.data.voltage =
      (createBattery env e).2.simBatteryVoltage + env.draw1 ∧
    (createBattery env e).1.data.voltage ≥ 9.95 := by
  have hmax : (10 : ℚ) ≤ max 10 (e.simBatteryVoltage - e.simTime * 0.0001) := le_max_left _ _
  refine ⟨rfl, hmax, rfl, ?_⟩
  show (9.95 : ℚ) ≤ max 10 (e.simBatteryVoltage - e.simTime * 0.0001) + env.draw1
  norm_num at hnoise ⊢
  linarith

/-- C18 (witness): the engine at the voltage floor and the lowest noise value. -/
theorem createBattery_voltage_bounds_witness :
    (-0.05 : ℚ) ≤ TickEnv.lowNoise.draw1 ∧
    (createBattery TickEnv.lowNoise engineLowBattery).1.data.voltage ≥ 9.95 :=
  have h : (-0.05 : ℚ) ≤ TickEnv.lowNoise.draw1 := by
    norm_num [TickEnv.lowNoise, TickEnv.zero]
  ⟨h, (createBattery_voltage_bounds TickEnv.lowNoise engineLowBattery h).2.2.2⟩

/-- C19 (counterexample): two freshly constructed engines in one process.  After the first
engine has ticked four times the second engine is still in its initial state, equal to the
state it has in the process that has not ticked; yet its next tick creates a Gps record in
the one process and an Attitude record in the other. -/
theorem tick_kind_counterexample :
    TwoEngines.afterFourTicks.second = TwoEngines.fresh.second ∧
    TwoEngines.kindOfSecond TickEnv.zero TwoEngines.fresh = MessageType.ATTITUDE ∧
    TwoEngines.kindOfSecond TickEnv.zero TwoEngines.afterFourTicks = MessageType.GPS ∧
    ¬ (TwoEngines.kindOfSecond TickEnv.zero TwoEngines.fresh =
        TwoEngines.kindOfSecond TickEnv.zero TwoEngines.afterFourTicks) := by
  have h1 : TwoEngines.kindOfSecond TickEnv.zero TwoEngines.fresh = MessageType.ATTITUDE :=
    rfl
  have h2 : TwoEngines.kindOfSecond TickEnv.zero TwoEngines.afterFourTicks =
      MessageType.GPS := rfl
  refine ⟨rfl, h1, h2, ?_⟩
  rw [h1, h2]
  decide

/-- C19 (amended): the message kind chosen by a tick is a function of the tick count that
all engine instances of the process share: in two processes with the same tick count the
next tick of any engine selects the same kind, whatever the states of the engines and the
readings; and every tick of either engine raises that count by one (wrapped to 32 bits). -/
theorem tick_kind_of_shared_count (p q : TwoEngines) (env env' : TickEnv)
    (h : p.tickCount = q.tickCount) :
    TwoEngines.kindOfFirst env p = TwoEngines.kindOfFirst env' q ∧
    TwoEngines.kindOfSecond env p = TwoEngines.kindOfSecond env' q ∧
    TwoEngines.kindOfFirst env p = TwoEngines.kindOfSecond env' q ∧
    (TwoEngines.tickFirst env p).tickCount = wrap32 (p.tickCount + 1) ∧
    (TwoEngines.tickSecond env p).tickCount = wrap32 (p.tickCount + 1) := by
  refine ⟨?_, ?_, ?_, pushSimulatedTick_tickCount p.tickCount env p.first,
    pushSimulatedTick_tickCount p.tickCount env p.second⟩
  all_goals
    simp only [TwoEngines.kindOfFirst, TwoEngines.kindOfSecond, tickRecord, h]
    exact generateMessage_type_congr _ _ _ _ _

/-- C19 (witness): the process after four ticks of the first engine, compared with itself
under different readings. -/
theorem tick_kind_of_shared_count_witness :
    TwoEngines.kindOfFirst TickEnv.zero TwoEngines.afterFourTicks =
      TwoEngines.kindOfSecond TickEnv.lowNoise TwoEngines.afterFourTicks :=
  (tick_kind_of_shared_count TwoEngines.afterFourTicks TwoEngines.afterFourTicks
    TickEnv.zero TickEnv.lowNoise rfl).2.2.1

/-! ## Runs of one engine: cursors and battery samples -/

@[simp] theorem getStats_writeIndex (t : Int) (e : TelemetryEngine) :
    (getStats t e).2.writeIndex = e.writeIndex := by
  simp only [getStats, cleanOldStats]

@[simp] theorem getStats_readIndex (t : Int) (e : TelemetryEngine) :
    (getStats t e).2.readIndex = e.readIndex := by
  simp only [getStats, cleanOldStats]

/-- The battery-voltage samples after `getStats`: the cap is applied, nothing is added. -/
theorem getStats_recentBatteryVoltages (t : Int) (e : TelemetryEngine) :
    (getStats t e).2.recentBatteryVoltages = capSamples e.recentBatteryVoltages := by
  simp only [getStats, cleanOldStats]

@[simp] theorem generateMessage_recentBatteryVoltages (tc : Int) (env : TickEnv)
    (e : TelemetryEngine) :
    (generateMessage tc env e).2.recentBatteryVoltages = e.recentBatteryVoltages := by
  unfold generateMessage; split_ifs <;> rfl

@[simp] theorem storeInRingBuffer_recentBatteryVoltages (m : TelemetryMessage)
    (e : TelemetryEngine) :
    (storeInRingBuffer m e).recentBatteryVoltages = e.recentBatteryVoltages := by
  simp only [storeInRingBuffer]; split_ifs <;> rfl

/-- The battery-voltage samples after a tick: the cap is applied, nothing is added, because
the record of a tick is never a Battery record. -/
theorem pushSimulatedTick_recentBatteryVoltages (tc : Int) (env : TickEnv)
    (e : TelemetryEngine) :
    (pushSimulatedTick tc env e).2.recentBatteryVoltages =
      capSamples e.recentBatteryVoltages := by
  simp only [pushSimulatedTick]
  rw [updateStats_recentBatteryVoltages, if_neg (generateMessage_type_ne_battery _ _ _),
    storeInRingBuffer_recentBatteryVoltages, generateMessage_recentBatteryVoltages]

/-- The cap leaves the empty sequence empty. -/
theorem capSamples_nil : capSamples [] = [] := rfl

/-- No call of a run adds a battery-voltage sample to an engine that has none. -/
theorem runOps_recentBatteryVoltages (ops : List EngineOp) :
    ∀ st : Int × TelemetryEngine, st.2.recentBatteryVoltages = [] →
      (runOps ops st).2.recentBatteryVoltages = [] := by
  induction ops with
  | nil => intro st h; exact h
  | cons op ops ih =>
    intro st h
    apply ih (applyOp op st)
    cases op with
    | tick env =>
      show (pushSimulatedTick st.1 env st.2).2.recentBatteryVoltages = []
      rw [pushSimulatedTick_recentBatteryVoltages, h, capSamples_nil]
    | batch maxCount =>
      show (getBatch st.2 maxCount).2.recentBatteryVoltages = []
      rw [getBatch_engine, h]
    | stats currentTime =>
      show (getStats currentTime st.2).2.recentBatteryVoltages = []
      rw [getStats_recentBatteryVoltages, h, capSamples_nil]

/-- Along a run that starts with equal cursors at `k mod 10000`, the cursors stay equal and
stand at `(k + number of ticks) mod 10000`. -/
theorem runOps_cursors (ops : List EngineOp) :
    ∀ (st : Int × TelemetryEngine) (k : Nat), st.2.writeIndex = st.2.readIndex →
      st.2.writeIndex = (k : Int) % 10000 →
      (runOps ops st).2.writeIndex = (runOps ops st).2.readIndex ∧
      (runOps ops st).2.writeIndex = ((k + ticksOf ops : Nat) : Int) % 10000 := by
  induction ops with
  | nil => intro st k h1 h2; exact ⟨h1, by simpa [ticksOf, runOps] using h2⟩
  | cons op ops ih =>
    intro st k h1 h2
    cases op with
    | tick env =>
      have hw : (pushSimulatedTick st.1 env st.2).2.writeIndex = ((k + 1 : Nat) : Int) % 10000 := by
        rw [pushSimulatedTick_writeIndex, h2,
          Int.tmod_eq_emod (by omega) (by unfold RING_BUFFER_SIZE; omega)]
        unfold RING_BUFFER_SIZE
        push_cast
        omega
      have h := ih (pushSimulatedTick st.1 env st.2) (k + 1)
        (pushSimulatedTick_cursors_eq _ _ _ h1) hw
      have hk : k + 1 + ticksOf ops = k + ticksOf (EngineOp.tick env :: ops) := by
        simp only [ticksOf]; omega
      rw [hk] at h
      exact h
    | batch maxCount =>
      have h := ih (st.1, (getBatch st.2 maxCount).2) k
        (by simp only [getBatch_engine]; exact h1) (by simp only [getBatch_engine]; exact h2)
      exact h
    | stats currentTime =>
      have h := ih (st.1, (getStats currentTime st.2).2) k
        (by simp only [getStats_writeIndex, getStats_readIndex]; exact h1)
        (by simp only [getStats_writeIndex]; exact h2)
      exact h

/-- The kind selected for a positive tick count: Heartbeat on the multiples of 10, Gps on the
counts that leave 5, Attitude otherwise. -/
theorem generateMessage_type_of_pos (n : Int) (hn : 0 < n) (env : TickEnv)
    (e : TelemetryEngine) :
    (generateMessage n env e).1.type =
      if n % 10 = 0 then MessageType.HEARTBEAT
      else if n % 10 = 5 then MessageType.GPS
      else MessageType.ATTITUDE := by
  unfold generateMessage
  rw [Int.tmod_eq_emod hn.le (by decide), Int.tmod_eq_emod hn.le (by decide),
    Int.tmod_eq_emod hn.le (by decide), Int.tmod_eq_emod hn.le (by decide)]
  split_ifs <;> first | rfl | omega

/-- A concrete run: three ticks with a `getBatch` and a `getStats` in between leave both
cursors at 3, the shared tick count at 3 and nothing for `getBatch` to return. -/
theorem runOps_opsThreeTicks :
    ticksOf opsThreeTicks = 3 ∧
    (runOps opsThreeTicks (0, TelemetryEngine.fresh)).1 = 3 ∧
    (runOps opsThreeTicks (0, TelemetryEngine.fresh)).2.writeIndex = 3 ∧
    (runOps opsThreeTicks (0, TelemetryEngine.fresh)).2.readIndex = 3 ∧
    (getBatch (runOps opsThreeTicks (0, TelemetryEngine.fresh)).2 10000).1 = [] := by
  decide

/-! ## The claims on runs of one engine -/

/-- C21: after any run of a freshly constructed engine, made of ticks interleaved with any
`getBatch` calls (and any `getStats` calls), whatever the shared tick count at the start and
the readings, the write cursor equals the read cursor, both equal the number of ticks of
the run modulo 10000, and `getBatch` returns the empty sequence for every `maxCount`. -/
theorem runOps_cursors_equal_batch_empty (ops : List EngineOp) (tickCount maxCount : Int) :
    (runOps ops (tickCount, TelemetryEngine.fresh)).2.writeIndex =
      (runOps ops (tickCount, TelemetryEngine.fresh)).2.readIndex ∧
    (runOps ops (tickCount, TelemetryEngine.fresh)).2.writeIndex =
      ((ticksOf ops : Nat) : Int) % 10000 ∧
    (runOps ops (tickCount, TelemetryEngine.fresh)).2.readIndex =
      ((ticksOf ops : Nat) : Int) % 10000 ∧
    (getBatch (runOps ops (tickCount, TelemetryEngine.fresh)).2 maxCount).1 = [] := by
  have h := runOps_cursors ops (tickCount, TelemetryEngine.fresh) 0 rfl rfl
  rw [Nat.zero_add] at h
  exact ⟨h.1, h.2, h.1 ▸ h.2, getBatch_nil_of_cursors_eq _ _ h.1⟩

/-- C22: for every positive tick count `n` the tick selects Heartbeat when `n mod 10 = 0`,
Gps when `n mod 10 = 5` and Attitude otherwise (also as the tick of `pushSimulatedTick` that
raises the count from `n - 1` to `n`, for `n` in the range of `int`); no tick, for any count,
creates a Battery record; a tick adds no battery-voltage sample; and along every run of a
freshly constructed engine the battery-voltage samples stay empty and `getStats` reports
`avg_batt_v = 0`. -/
theorem tick_schedule_exact (n : Int) (hn : 0 < n) (env : TickEnv) (e : TelemetryEngine) :
    ((generateMessage n env e).1.type =
      if n % 10 = 0 then MessageType.HEARTBEAT
      else if n % 10 = 5 then MessageType.GPS
      else MessageType.ATTITUDE) ∧
    (n < 2147483648 →
      (tickRecord (n - 1) env e).type =
        if n % 10 = 0 then MessageType.HEARTBEAT
        else if n % 10 = 5 then MessageType.GPS
        else MessageType.ATTITUDE) ∧
    (∀ (tc : Int) (env' : TickEnv) (e' : TelemetryEngine),
      (tickRecord tc env' e').type ≠ MessageType.BATTERY) ∧
    (∀ (tc : Int) (env' : TickEnv) (e' : TelemetryEngine),
      e'.recentBatteryVoltages.length ≤ 1000 →
      (pushSimulatedTick tc env' e').2.recentBatteryVoltages = e'.recentBatteryVoltages) ∧
    (∀ (ops : List EngineOp) (tc now : Int),
      (runOps ops (tc, TelemetryEngine.fresh)).2.recentBatteryVoltages = [] ∧
      (getStats now (runOps ops (tc, TelemetryEngine.fresh)).2).1.avg_batt_v = 0) := by
  refine ⟨generateMessage_type_of_pos n hn env e, ?_, ?_, ?_, ?_⟩
  · intro hlt
    unfold tickRecord
    rw [Int.sub_add_cancel, wrap32_of_range n (by omega) hlt]
    exact generateMessage_type_of_pos n hn env _
  · intro tc env' e'
    exact generateMessage_type_ne_battery _ _ _
  · intro tc env' e' hlen
    rw [pushSimulatedTick_recentBatteryVoltages, capSamples_of_le _ hlen]
  · intro ops tc now
    have hnil := runOps_recentBatteryVoltages ops (tc, TelemetryEngine.fresh) rfl
    refine ⟨hnil, ?_⟩
    have hav : (getStats now (runOps ops (tc, TelemetryEngine.fresh)).2).1.avg_batt_v =
        averageOf (getStats now (runOps ops (tc, TelemetryEngine.fresh)).2).2.recentBatteryVoltages := by
      simp only [getStats]
    rw [hav, getStats_recentBatteryVoltages, hnil, capSamples_nil]
    rfl

/-- C22 (witness): the tick counts 20 (Heartbeat, not Battery), 15 (Gps) and 4 (Attitude). -/
theorem tick_schedule_exact_witness :
    (generateMessage 20 TickEnv.zero TelemetryEngine.fresh).1.type = MessageType.HEARTBEAT ∧
    (generateMessage 15 TickEnv.zero TelemetryEngine.fresh).1.type = MessageType.GPS ∧
    (tickRecord 3 TickEnv.zero TelemetryEngine.fresh).type = MessageType.ATTITUDE :=
  ⟨(tick_schedule_exact 20 (by decide) TickEnv.zero TelemetryEngine.fresh).1.trans (by decide),
   (tick_schedule_exact 15 (by decide) TickEnv.zero TelemetryEngine.fresh).1.trans (by decide),
   ((tick_schedule_exact 4 (by decide) TickEnv.zero TelemetryEngine.fresh).2.1
      (by decide)).trans (by decide)⟩

end Pixhawk
